import Mathlib

/-!
Verification of the callyala campaign/call reconciliation engine.

The repository contains two parallel implementations of the engine:

- a database-backed one: `app/api/routes/webhooks_elevenlabs.py`,
  `app/api/routes/campaigns.py`, with SQLAlchemy models in `app/models/`
  (enums in `app/models/enums.py`);
- a file-storage one: `app/api/routes/webhooks.py`,
  `app/services/storage.py`, `app/services/campaign.py`, with pydantic
  models in `app/models/domain.py`.

This file embeds both: the `Db` namespace models the database-backed
implementation, the `FileApi` namespace the file-storage one.  Python
dictionaries are modelled as structures with `Option` fields (a `none`
field is an absent or `None` key), Python truthiness is modelled
explicitly where the source relies on it, and the external collaborators
(HMAC-SHA256, `datetime.fromisoformat`, the provider batch API, payload
parsing) are abstracted as function parameters, since only their
input/output behaviour is observable in the handler logic.
-/

namespace Callyala

/-! ## Enums of the database-backed implementation (`app/models/enums.py`) -/

inductive CampaignStatus
  | DRAFT | READY | RUNNING | PAUSED | COMPLETED | FAILED
  deriving DecidableEq, Repr

inductive TargetStatus
  | PENDING | IN_PROGRESS | DONE | FAILED | OPTED_OUT
  deriving DecidableEq, Repr

inductive CallDirection
  | OUTBOUND | INBOUND
  deriving DecidableEq, Repr

inductive CallStatus
  | QUEUED | IN_PROGRESS | COMPLETED | FAILED
  deriving DecidableEq, Repr

inductive CallOutcome
  | BOOKED | NO_ANSWER | VOICEMAIL | BUSY | WRONG_NUMBER | OPT_OUT
  | CALLBACK_REQUESTED | RESCHEDULED | OTHER
  deriving DecidableEq, Repr

/-- The `.value` string of a `CallOutcome` member. -/
def CallOutcome.value : CallOutcome → String
  | .BOOKED => "BOOKED"
  | .NO_ANSWER => "NO_ANSWER"
  | .VOICEMAIL => "VOICEMAIL"
  | .BUSY => "BUSY"
  | .WRONG_NUMBER => "WRONG_NUMBER"
  | .OPT_OUT => "OPT_OUT"
  | .CALLBACK_REQUESTED => "CALLBACK_REQUESTED"
  | .RESCHEDULED => "RESCHEDULED"
  | .OTHER => "OTHER"

inductive SentimentLabel
  | POS | NEU | NEG
  deriving DecidableEq, Repr

inductive AppointmentType
  | PICKUP | SERVICE
  deriving DecidableEq, Repr

inductive AppointmentStatus
  | BOOKED | RESCHEDULED | CANCELED | COMPLETED
  deriving DecidableEq, Repr

inductive AppointmentSource
  | AI | HUMAN
  deriving DecidableEq, Repr

/-! ## Python-value helpers

Python `x or y` on strings treats `None` and `""` as falsy; `bool(x)`
on an optional bool is true only for `True`. -/

/-- Python truthiness of an optional string (`None` and `""` are falsy). -/
def strTruthy : Option String → Bool
  | none => false
  | some s => s ≠ ""

/-- Python `a or b or ...` over optional strings: the first truthy value,
`none` when all are falsy. -/
def firstTruthyStr : List (Option String) → Option String
  | [] => none
  | x :: rest => if strTruthy x then x else firstTruthyStr rest

/-- Python `a or b` over optional ints (`None` and `0` are falsy). -/
def firstTruthyInt : List (Option Int) → Option Int
  | [] => none
  | x :: rest => match x with
      | some v => if v ≠ 0 then some v else firstTruthyInt rest
      | none => firstTruthyInt rest

/-- Prefix test on character lists. -/
def listIsPrefixOf : List Char → List Char → Bool
  | [], _ => true
  | _ :: _, [] => false
  | a :: as, b :: bs => a == b && listIsPrefixOf as bs

/-- Substring containment on character lists. -/
def listContainsSub (pat : List Char) : List Char → Bool
  | [] => listIsPrefixOf pat []
  | c :: rest => listIsPrefixOf pat (c :: rest) || listContainsSub pat rest

/-- Python `pat in s` substring containment on strings. -/
def pyIn (pat s : String) : Bool :=
  listContainsSub pat.data s.data

/-- Python `str.lower()` (ASCII is all the source compares). -/
def pyLower (s : String) : String :=
  String.mk (s.data.map Char.toLower)

/-- A value of Python `datetime`: `datetime.fromisoformat` results and
`datetime.now()` are modelled at field granularity; `replace(hour=9,
minute=0)` keeps the remaining fields. -/
structure PyDateTime where
  year : Nat
  month : Nat
  day : Nat
  hour : Nat
  minute : Nat
  second : Nat
  deriving DecidableEq, Repr

/-! ## Outcome classifier of the database-backed webhook handler
(`webhooks_elevenlabs.py`, `map_call_outcome` / `map_sentiment`)

The handler passes `payload.analysis.model_dump() if payload.analysis
else {}`; a pydantic dump always contains all keys, so the dict is empty
(falsy) exactly when the payload carried no `analysis` object.  The
`Option ElevenLabsAnalysis` argument below is that dict, `none` for the
empty dict. -/

/-- `ElevenLabsAnalysis` schema (`app/schemas/webhooks.py`): every field
is optional and `None`-defaulted. -/
structure ElevenLabsAnalysis where
  appointment_booked : Option Bool := none
  pickup_date : Option String := none
  pickup_time : Option String := none
  callback_requested : Option Bool := none
  callback_time : Option String := none
  opt_out : Option Bool := none
  customer_confirmed : Option Bool := none
  summary : Option String := none
  notes : Option String := none
  deriving DecidableEq, Repr

/-- `ElevenLabsSentiment` schema. -/
structure ElevenLabsSentiment where
  label : Option String := none
  score : Option Rat := none
  deriving DecidableEq, Repr

/-- `map_sentiment` (`webhooks_elevenlabs.py` lines 65-79): the label map
keyed on the lower-cased label, `dict.get` returning `None` off the map. -/
def map_sentiment (sentiment_data : Option ElevenLabsSentiment) :
    Option SentimentLabel × Option Rat :=
  match sentiment_data with
  | none => (none, none)
  | some sd =>
      let label := pyLower (sd.label.getD "")
      let mapped : Option SentimentLabel :=
        if label == "positive" then some .POS
        else if label == "neutral" then some .NEU
        else if label == "negative" then some .NEG
        else none
      (mapped, sd.score)

/-- `map_call_outcome` (`webhooks_elevenlabs.py` lines 82-100).
`analysis.get(flag)` is truthy only for `True`. -/
def map_call_outcome (analysis : Option ElevenLabsAnalysis)
    (status : Option String) : CallOutcome :=
  match analysis with
  | none =>
      if status = some "no_answer" then .NO_ANSWER
      else if status = some "busy" then .BUSY
      else if status = some "voicemail" then .VOICEMAIL
      else .OTHER
  | some a =>
      if a.appointment_booked = some true then .BOOKED
      else if a.opt_out = some true then .OPT_OUT
      else if a.callback_requested = some true then .CALLBACK_REQUESTED
      else .OTHER

/-! ## File-storage implementation (`app/models/domain.py`,
`app/api/routes/webhooks.py`, `app/services/storage.py`) -/

namespace FileApi

/-- `CampaignStatus` of `app/models/domain.py` (no READY member). -/
inductive CampaignStatus
  | draft | running | paused | completed | failed
  deriving DecidableEq, Repr

/-- `CallStatus` of `app/models/domain.py`. -/
inductive CallStatus
  | pending | queued | in_progress | completed | failed | no_answer | busy
  deriving DecidableEq, Repr

def CallStatus.value : CallStatus → String
  | .pending => "pending"
  | .queued => "queued"
  | .in_progress => "in_progress"
  | .completed => "completed"
  | .failed => "failed"
  | .no_answer => "no_answer"
  | .busy => "busy"

/-- `CallOutcome` of `app/models/domain.py`. -/
inductive CallOutcome
  | unknown | voicemail | callback_requested | appointment_set
  | not_interested | wrong_number | do_not_call | transferred
  | needs_followup
  deriving DecidableEq, Repr

def CallOutcome.value : CallOutcome → String
  | .unknown => "unknown"
  | .voicemail => "voicemail"
  | .callback_requested => "callback_requested"
  | .appointment_set => "appointment_set"
  | .not_interested => "not_interested"
  | .wrong_number => "wrong_number"
  | .do_not_call => "do_not_call"
  | .transferred => "transferred"
  | .needs_followup => "needs_followup"

/-- The `analysis` sub-dict of an ElevenLabs webhook payload as read by
`webhooks.py`.  `map_outcome` reads only `intent`; the structured flags
(`appointment_booked`, `opt_out`, `callback_requested`) that the
provider may include (see `ElevenLabsAnalysis` in
`app/schemas/webhooks.py`) are carried here but never consulted by
`map_outcome`. -/
structure WebhookAnalysis where
  intent : Option String := none
  appointment_booked : Option Bool := none
  opt_out : Option Bool := none
  callback_requested : Option Bool := none
  sentiment : Option String := none
  sentiment_label : Option String := none
  date : Option String := none
  time : Option String := none
  notes : Option String := none
  deriving DecidableEq, Repr

/-- The `extracted_fields` sub-dict of a payload. -/
structure ExtractedFields where
  pickup_date : Option String := none
  appointment_date : Option String := none
  pickup_time : Option String := none
  appointment_time : Option String := none
  confirmed : Option Bool := none
  callback_time : Option String := none
  notes : Option String := none
  deriving DecidableEq, Repr

/-- The raw webhook JSON body as a record of the keys `webhooks.py`
reads (`none` models an absent key). -/
structure WebhookData where
  call_id : Option String := none
  conversation_id : Option String := none
  batch_id : Option String := none
  type : Option String := none
  status : Option String := none
  call_status : Option String := none
  transcript : Option String := none
  summary : Option String := none
  recording_url : Option String := none
  duration_seconds : Option Int := none
  duration : Option Int := none
  error : Option String := none
  failure_reason : Option String := none
  analysis : Option WebhookAnalysis := none
  extracted_fields : Option ExtractedFields := none
  deriving DecidableEq, Repr

/-- `map_outcome` (`webhooks.py` lines 17-43): keyword matching on a
lower-cased `analysis.intent`, then the raw status; every status path
yields `unknown`. -/
def map_outcome (data : WebhookData) : CallOutcome :=
  let intent := pyLower (match data.analysis with
    | none => ""
    | some a => a.intent.getD "")
  if pyIn "appointment" intent || pyIn "schedule" intent
      || pyIn "book" intent || pyIn "pickup" intent then
    .appointment_set
  else if pyIn "callback" intent || pyIn "call back" intent
      || pyIn "call me back" intent then
    .callback_requested
  else if pyIn "not interested" intent || pyIn "no thanks" intent
      || pyIn "not now" intent then
    .not_interested
  else if pyIn "wrong number" intent then
    .wrong_number
  else if pyIn "voicemail" intent || pyIn "leave message" intent then
    .voicemail
  else if pyIn "do not call" intent || pyIn "stop calling" intent
      || pyIn "remove" intent || pyIn "opt out" intent then
    .do_not_call
  else if pyIn "transfer" intent then
    .transferred
  else
    let callStatus := pyLower ((firstTruthyStr [data.status, data.call_status]).getD "")
    if callStatus == "no_answer" || callStatus == "no-answer"
        || callStatus == "noanswer" then
      .unknown
    else
      .unknown

/-- `extract_booking_info` (`webhooks.py` lines 46-57). -/
structure BookingInfo where
  booked_date : Option String
  booked_time : Option String
  confirmed : Bool
  callback_time : Option String
  notes : Option String
  deriving DecidableEq, Repr

def extract_booking_info (data : WebhookData) : BookingInfo :=
  let an := data.analysis.getD {}
  let ef := data.extracted_fields.getD {}
  { booked_date := firstTruthyStr [ef.pickup_date, ef.appointment_date, an.date]
    booked_time := firstTruthyStr [ef.pickup_time, ef.appointment_time, an.time]
    confirmed := ef.confirmed.getD false
    callback_time := ef.callback_time
    notes := firstTruthyStr [ef.notes, an.notes] }

end FileApi

/-! ## Database-backed data model (`app/models/`)

Rows are structures, tables are lists of rows, and the session plus
commit of one request is a pure state transform on `Db`.  UUIDs and
timestamps generated by the database are passed in as parameters. -/

namespace Db

/-- `RetryPolicy` schema (`app/schemas/campaigns.py` lines 24-30),
stored on the campaign as `retry_policy_json`. -/
structure RetryPolicy where
  max_attempts : Nat := 3
  retry_delay_hours : Nat := 4
  retry_on_no_answer : Bool := true
  retry_on_busy : Bool := true
  deriving DecidableEq, Repr

/-- `Campaign` row (`app/models/campaign.py`), fields the engine reads. -/
structure Campaign where
  id : String
  org_id : String
  branch_id : Option String := none
  name : String := ""
  purpose : String := ""
  script_id : Option String := none
  status : CampaignStatus
  retry_policy : Option RetryPolicy := none
  eleven_batch_id : Option String := none
  deriving DecidableEq, Repr

/-- `CampaignTarget` row (`app/models/campaign_target.py`). -/
structure CampaignTarget where
  id : String
  campaign_id : String
  customer_id : String
  vehicle_id : Option String := none
  job_id : Option String := none
  status : TargetStatus
  attempts_count : Nat := 0
  last_attempt_at : Option Nat := none
  next_attempt_at : Option Nat := none
  last_outcome : Option CallOutcome := none
  last_error : Option String := none
  deriving DecidableEq, Repr

/-- `Customer` row (`app/models/customer.py`), fields the engine reads. -/
structure Customer where
  id : String
  org_id : String
  first_name : String := ""
  last_name : String := ""
  phone_e164 : String
  deriving DecidableEq, Repr

/-- `Vehicle` row (`app/models/vehicle.py`), fields the engine reads. -/
structure Vehicle where
  id : String
  org_id : String
  customer_id : String
  make : String := ""
  model : String := ""
  plate_number : Option String := none
  deriving DecidableEq, Repr

/-- `Call` row (`app/models/call.py`).  The `extracted_fields_json` dict
built by the webhook handler is flattened into the `extracted_*`
fields (its five keys).  `sentiment_score` is a rational standing for
the float column. -/
structure Call where
  id : String
  org_id : Option String := none
  branch_id : Option String := none
  campaign_id : Option String := none
  target_id : Option String := none
  customer_id : Option String := none
  vehicle_id : Option String := none
  job_id : Option String := none
  direction : CallDirection := .OUTBOUND
  status : CallStatus
  outcome : Option CallOutcome := none
  started_at : Option Nat := none
  ended_at : Option Nat := none
  duration_sec : Option Int := none
  eleven_conversation_id : Option String := none
  eleven_call_id : Option String := none
  eleven_batch_id : Option String := none
  transcript_text : Option String := none
  summary_text : Option String := none
  extracted_pickup_date : Option String := none
  extracted_pickup_time : Option String := none
  extracted_callback_time : Option String := none
  extracted_confirmed : Option Bool := none
  extracted_notes : Option String := none
  sentiment_label : Option SentimentLabel := none
  sentiment_score : Option Rat := none
  recording_url : Option String := none
  requires_human_review : Bool := false
  deriving DecidableEq, Repr

/-- `DncEntry` row (`app/models/dnc.py`); (org_id, phone_e164) carries a
uniqueness constraint in the schema. -/
structure DncEntry where
  org_id : String
  phone_e164 : String
  reason : Option String := none
  source : String := "MANUAL"
  deriving DecidableEq, Repr

/-- `Appointment` row (`app/models/appointment.py`), fields the webhook
handler writes. -/
structure Appointment where
  org_id : String
  branch_id : Option String := none
  customer_id : String
  vehicle_id : Option String := none
  job_id : Option String := none
  call_id : String
  type : AppointmentType
  scheduled_start : PyDateTime
  status : AppointmentStatus
  source : AppointmentSource
  deriving DecidableEq, Repr

/-- `AuditLog` row (`app/models/audit_log.py`); the `after_json` dict the
webhook handler writes is flattened into its two keys. -/
structure AuditLog where
  org_id : String
  action : String
  entity_type : String
  entity_id : String
  after_outcome : String
  after_conversation_id : String
  deriving DecidableEq, Repr

/-- The relational state touched by the engine. -/
structure Database where
  campaigns : List Campaign := []
  targets : List CampaignTarget := []
  customers : List Customer := []
  vehicles : List Vehicle := []
  calls : List Call := []
  dnc : List DncEntry := []
  appointments : List Appointment := []
  audit : List AuditLog := []
  deriving DecidableEq, Repr

/-! ### `webhooks_elevenlabs.py` — the database-backed reconciler

`hmac.new(secret, body, sha256).hexdigest()` is abstracted as a
function argument `mac : String → String → String` (secret, raw body ↦
hex digest); `datetime.fromisoformat` as `fromiso : String → Option
PyDateTime` (`none` models the `ValueError`); pydantic payload parsing
as `parse : String → Option ElevenLabsPostCallPayload`.  `now` is
`datetime.now(timezone.utc)` and `nowTs` the same instant as a
timestamp; `new_call_id` is the UUID the database would mint for a new
`Call` row. -/

/-- The `metadata` dict of a payload, as read by the handler (only the
`target_id` key is consulted); `none` is an absent or empty dict. -/
structure PayloadMetadata where
  target_id : Option String := none
  deriving DecidableEq, Repr

/-- `ElevenLabsPostCallPayload` schema (`app/schemas/webhooks.py`). -/
structure ElevenLabsPostCallPayload where
  conversation_id : String
  call_id : Option String := none
  batch_id : Option String := none
  phone_number : Option String := none
  status : Option String := none
  started_at : Option Nat := none
  ended_at : Option Nat := none
  duration_seconds : Option Int := none
  transcript : Option String := none
  analysis : Option ElevenLabsAnalysis := none
  sentiment : Option ElevenLabsSentiment := none
  recording_url : Option String := none
  metadata : Option PayloadMetadata := none
  deriving DecidableEq, Repr

/-- `verify_webhook_signature` (`webhooks_elevenlabs.py` lines 42-62):
an unconfigured secret skips verification; otherwise the supplied
signature must equal the HMAC-SHA256 hex digest of the raw body
(`hmac.compare_digest` is equality in constant time). -/
def verify_webhook_signature (mac : String → String → String)
    (payload signature secret : String) : Bool :=
  if secret == "" then true else mac secret payload == signature

/-- Lookup of an existing call by `eleven_conversation_id` (line 152). -/
def findCallByConversationId (db : Database) (cid : String) : Option Call :=
  db.calls.find? (fun c => c.eleven_conversation_id == some cid)

/-- Target resolution from payload metadata (lines 162-168): requires a
truthy `metadata` dict, a truthy `target_id` in it, and a matching row. -/
def resolveTarget (db : Database) (p : ElevenLabsPostCallPayload) :
    Option CampaignTarget :=
  match p.metadata with
  | none => none
  | some m =>
      match m.target_id with
      | some tid =>
          if tid == "" then none
          else db.targets.find? (fun t => t.id == tid)
      | none => none

/-- Campaign of a resolved target (lines 170-174). -/
def resolveCampaign (db : Database) (target? : Option CampaignTarget) :
    Option Campaign :=
  target?.bind (fun t => db.campaigns.find? (fun c => c.id == t.campaign_id))

/-- Customer of a resolved target (lines 176-179). -/
def resolveCustomer (db : Database) (target? : Option CampaignTarget) :
    Option Customer :=
  target?.bind (fun t => db.customers.find? (fun c => c.id == t.customer_id))

/-- Python `sentiment_score and sentiment_score < -0.3` (line 208):
`None` and `0.0` are falsy. -/
def scoreTruthyNegative (score : Option Rat) : Bool :=
  match score with
  | some s => s ≠ 0 && s < -(3/10 : Rat)
  | none => false

/-- Python `sentiment_score is not None and sentiment_score < -0.3`
(line 249). -/
def scoreNegative (score : Option Rat) : Bool :=
  match score with
  | some s => s < -(3/10 : Rat)
  | none => false

/-- Python `not analysis_dict.get("callback_time")` (line 210): an
absent key and an empty string are both falsy. -/
def pyFalsyOptStr (x : Option String) : Bool :=
  match x with
  | none => true
  | some s => s == ""

/-- The existing-call update block (lines 188-211). -/
def updatedExistingCall (call : Call) (p : ElevenLabsPostCallPayload)
    (outcome : CallOutcome) (slabel : Option SentimentLabel)
    (sscore : Option Rat) : Call :=
  let c := { call with
    status := CallStatus.COMPLETED
    outcome := some outcome
    ended_at := p.ended_at
    duration_sec := p.duration_seconds
    transcript_text := p.transcript
    summary_text := p.analysis.bind (·.summary)
    extracted_pickup_date := p.analysis.bind (·.pickup_date)
    extracted_pickup_time := p.analysis.bind (·.pickup_time)
    extracted_callback_time := p.analysis.bind (·.callback_time)
    extracted_confirmed := p.analysis.bind (·.customer_confirmed)
    extracted_notes := p.analysis.bind (·.notes)
    sentiment_label := slabel
    sentiment_score := sscore
    recording_url := p.recording_url }
  let c := if scoreTruthyNegative sscore then
      { c with requires_human_review := true } else c
  if outcome = CallOutcome.CALLBACK_REQUESTED ∧
      pyFalsyOptStr (p.analysis.bind (·.callback_time)) = true then
    { c with requires_human_review := true }
  else c

/-- The new-call construction block (lines 220-250); `customer` is
non-`None` on this path. -/
def newCallRecord (new_call_id : String) (p : ElevenLabsPostCallPayload)
    (outcome : CallOutcome) (slabel : Option SentimentLabel)
    (sscore : Option Rat) (customer : Customer)
    (campaign? : Option Campaign) (target? : Option CampaignTarget) : Call :=
  { id := new_call_id
    org_id := some customer.org_id
    branch_id := campaign?.bind (·.branch_id)
    campaign_id := campaign?.map (·.id)
    target_id := target?.map (·.id)
    customer_id := some customer.id
    vehicle_id := target?.bind (·.vehicle_id)
    job_id := target?.bind (·.job_id)
    direction := CallDirection.OUTBOUND
    status := CallStatus.COMPLETED
    outcome := some outcome
    started_at := p.started_at
    ended_at := p.ended_at
    duration_sec := p.duration_seconds
    eleven_conversation_id := some p.conversation_id
    eleven_call_id := p.call_id
    eleven_batch_id := p.batch_id
    transcript_text := p.transcript
    summary_text := p.analysis.bind (·.summary)
    extracted_pickup_date := p.analysis.bind (·.pickup_date)
    extracted_pickup_time := p.analysis.bind (·.pickup_time)
    extracted_callback_time := p.analysis.bind (·.callback_time)
    extracted_confirmed := p.analysis.bind (·.customer_confirmed)
    extracted_notes := p.analysis.bind (·.notes)
    sentiment_label := slabel
    sentiment_score := sscore
    recording_url := p.recording_url
    requires_human_review := scoreNegative sscore }

/-- The campaign-target update block (lines 253-264): the attempt
counter is incremented first, then the status rules run on the
incremented value; the exhaustion threshold is the literal `3`. -/
def updateTargetOnWebhook (t : CampaignTarget) (outcome : CallOutcome)
    (nowTs : Nat) : CampaignTarget :=
  let t1 := { t with
    attempts_count := t.attempts_count + 1
    last_attempt_at := some nowTs
    last_outcome := some outcome }
  if outcome = CallOutcome.BOOKED then
    { t1 with status := TargetStatus.DONE }
  else if outcome = CallOutcome.OPT_OUT then
    { t1 with status := TargetStatus.OPTED_OUT }
  else if t1.attempts_count ≥ 3 then
    { t1 with status := TargetStatus.FAILED }
  else t1

/-- The opt-out / DNC block (lines 266-282): insert-if-absent keyed on
(org_id, phone_e164) of the resolved customer. -/
def dncAfterOptOut (dnc : List DncEntry) (outcome : CallOutcome)
    (customer? : Option Customer) : List DncEntry :=
  if outcome = CallOutcome.OPT_OUT then
    match customer? with
    | some c =>
        if dnc.any (fun e => e.org_id == c.org_id && e.phone_e164 == c.phone_e164)
        then dnc
        else dnc ++ [{ org_id := c.org_id, phone_e164 := c.phone_e164,
                       reason := some "Customer opted out during call",
                       source := "AI_CALL" }]
    | none => dnc
  else dnc

/-- Python `pickup_time or '09:00'` (line 292): an absent key and an
empty string both fall back. -/
def pickupTimeOf (analysis : Option ElevenLabsAnalysis) : String :=
  match analysis.bind (·.pickup_time) with
  | some s => if s == "" then "09:00" else s
  | none => "09:00"

/-- The appointment-creation block (lines 284-309): only runs when the
outcome is BOOKED, a customer is resolved and `pickup_date` is truthy;
a `ValueError` from `fromisoformat` falls back to
`now.replace(hour=9, minute=0)`. -/
def appointmentsAfterBooked (fromiso : String → Option PyDateTime)
    (now : PyDateTime) (appts : List Appointment) (outcome : CallOutcome)
    (customer? : Option Customer) (campaign? : Option Campaign)
    (target? : Option CampaignTarget) (call : Call)
    (analysis : Option ElevenLabsAnalysis) : List Appointment :=
  if outcome = CallOutcome.BOOKED then
    match customer? with
    | some c =>
        match analysis.bind (·.pickup_date) with
        | some pd =>
            if pd == "" then appts
            else
              let sched := match fromiso (pd ++ "T" ++ pickupTimeOf analysis) with
                | some v => v
                | none => { now with hour := 9, minute := 0 }
              appts ++ [{ org_id := c.org_id
                          branch_id := match campaign? with
                            | some cg => cg.branch_id
                            | none => call.branch_id
                          customer_id := c.id
                          vehicle_id := target?.bind (·.vehicle_id)
                          job_id := target?.bind (·.job_id)
                          call_id := call.id
                          type := AppointmentType.PICKUP
                          scheduled_start := sched
                          status := AppointmentStatus.BOOKED
                          source := AppointmentSource.AI }]
        | none => appts
    | none => appts
  else appts

/-- The audit-log block (lines 311-323): one entry appended whenever a
customer was resolved. -/
def auditAfterWebhook (audit : List AuditLog) (customer? : Option Customer)
    (call : Call) (outcome : CallOutcome) (conversation_id : String) :
    List AuditLog :=
  match customer? with
  | some c =>
      audit ++ [{ org_id := c.org_id, action := "CALL_COMPLETED",
                  entity_type := "call", entity_id := call.id,
                  after_outcome := outcome.value,
                  after_conversation_id := conversation_id }]
  | none => audit

/-- The reconciliation body of `handle_post_call_webhook` (lines
149-328), after signature verification and payload parsing: the whole
session is committed at the end, so it is one state transform. -/
def reconcilePostCall (fromiso : String → Option PyDateTime)
    (now : PyDateTime) (nowTs : Nat) (new_call_id : String)
    (db : Database) (p : ElevenLabsPostCallPayload) : Database × String :=
  let call? := findCallByConversationId db p.conversation_id
  let target? := resolveTarget db p
  let campaign? := resolveCampaign db target?
  let customer? := resolveCustomer db target?
  let sres := map_sentiment p.sentiment
  let outcome := map_call_outcome p.analysis p.status
  let step : Option (List Call × Call) :=
    match call? with
    | some call =>
        let c := updatedExistingCall call p outcome sres.1 sres.2
        some (db.calls.map (fun x => if x.id == call.id then c else x), c)
    | none =>
        match customer? with
        | none => none
        | some cust =>
            let c := newCallRecord new_call_id p outcome sres.1 sres.2
              cust campaign? target?
            some (db.calls ++ [c], c)
  match step with
  | none => (db, "Webhook received, but no customer context found")
  | some (calls', call) =>
      let targets' := match target? with
        | some tgt => db.targets.map (fun t =>
            if t.id == tgt.id then updateTargetOnWebhook t outcome nowTs else t)
        | none => db.targets
      let dnc' := dncAfterOptOut db.dnc outcome customer?
      let appointments' := appointmentsAfterBooked fromiso now
        db.appointments outcome customer? campaign? target? call p.analysis
      let audit' := auditAfterWebhook db.audit customer? call outcome
        p.conversation_id
      ({ db with calls := calls', targets := targets', dnc := dnc',
                 appointments := appointments', audit := audit' },
       "Webhook processed successfully")

/-- HTTP-level result of the database-backed webhook route. -/
inductive WebhookResponse
  | unauthorized (detail : String)
  | badRequest (detail : String)
  | ok (message : String)
  deriving DecidableEq, Repr

/-- Payload parsing and reconciliation stage (lines 138-328). -/
def postCallAfterAuth (parse : String → Option ElevenLabsPostCallPayload)
    (fromiso : String → Option PyDateTime) (now : PyDateTime) (nowTs : Nat)
    (new_call_id : String) (db : Database) (body : String) :
    Database × WebhookResponse :=
  match parse body with
  | none => (db, .badRequest "Invalid payload")
  | some p =>
      let r := reconcilePostCall fromiso now nowTs new_call_id db p
      (r.1, .ok r.2)

/-- `handle_post_call_webhook` (lines 104-328): signature gate, then
parsing, then reconciliation. -/
def handle_post_call_webhook (mac : String → String → String)
    (secret : String) (x_elevenlabs_signature : Option String)
    (body : String) (parse : String → Option ElevenLabsPostCallPayload)
    (fromiso : String → Option PyDateTime) (now : PyDateTime) (nowTs : Nat)
    (new_call_id : String) (db : Database) : Database × WebhookResponse :=
  if secret == "" then
    postCallAfterAuth parse fromiso now nowTs new_call_id db body
  else
    match x_elevenlabs_signature with
    | none => (db, .unauthorized "Missing webhook signature")
    | some sig =>
        if verify_webhook_signature mac body sig secret then
          postCallAfterAuth parse fromiso now nowTs new_call_id db body
        else (db, .unauthorized "Invalid webhook signature")

/-! ### `campaigns.py` — enrollment and campaign start -/

/-- `TargetCreateItem` of one upload row (`app/schemas/campaigns.py`). -/
structure TargetCreateItem where
  phone : String
  first_name : String := ""
  last_name : String := ""
  plate_number : Option String := none
  vehicle_make : Option String := none
  vehicle_model : Option String := none
  job_id : Option String := none
  deriving DecidableEq, Repr

/-- Counters of `TargetUploadResult`. -/
structure UploadCounters where
  created : Nat := 0
  skipped_dnc : Nat := 0
  skipped_duplicate : Nat := 0
  deriving DecidableEq, Repr

/-- State threaded through the `upload_targets` loop: the session, the
counters, and a supply for the UUIDs the database would mint. -/
structure UploadState where
  db : Database
  counters : UploadCounters
  fresh : Nat
  deriving Repr

/-- One iteration of the `upload_targets` loop (`campaigns.py` lines
219-293): DNC screen, find-or-create customer, find-or-create vehicle,
duplicate screen, then a PENDING target. -/
def uploadTargetItem (org_id campaign_id : String) (s : UploadState)
    (item : TargetCreateItem) : UploadState :=
  if s.db.dnc.any (fun e => e.org_id == org_id && e.phone_e164 == item.phone) then
    { s with counters := { s.counters with
        skipped_dnc := s.counters.skipped_dnc + 1 } }
  else
    let found := s.db.customers.find? (fun c =>
      c.org_id == org_id && c.phone_e164 == item.phone)
    let customer : Customer := match found with
      | some c => c
      | none => { id := "cust-" ++ toString s.fresh, org_id := org_id,
                  first_name := item.first_name, last_name := item.last_name,
                  phone_e164 := item.phone }
    let db1 := match found with
      | some _ => s.db
      | none => { s.db with customers := s.db.customers ++ [customer] }
    let fresh1 := match found with
      | some _ => s.fresh
      | none => s.fresh + 1
    let vehicleFound := match item.plate_number with
      | some plate => db1.vehicles.find? (fun v =>
          v.org_id == org_id && v.plate_number == some plate)
      | none => none
    let mkVehicle : Bool := item.plate_number.isSome && vehicleFound.isNone
        && item.vehicle_make.isSome && item.vehicle_model.isSome
    let vehicle? : Option Vehicle :=
      match vehicleFound with
      | some v => some v
      | none =>
          if mkVehicle then
            some { id := "veh-" ++ toString fresh1, org_id := org_id,
                   customer_id := customer.id,
                   make := item.vehicle_make.getD "",
                   model := item.vehicle_model.getD "",
                   plate_number := item.plate_number }
          else none
    let db2 := if mkVehicle then
        { db1 with vehicles := db1.vehicles ++ vehicle?.toList }
      else db1
    let fresh2 := if mkVehicle then fresh1 + 1 else fresh1
    if db2.targets.any (fun t =>
        t.campaign_id == campaign_id && t.customer_id == customer.id) then
      { db := db2, fresh := fresh2,
        counters := { s.counters with
          skipped_duplicate := s.counters.skipped_duplicate + 1 } }
    else
      let target : CampaignTarget :=
        { id := "tgt-" ++ toString fresh2, campaign_id := campaign_id,
          customer_id := customer.id,
          vehicle_id := vehicle?.map (·.id), job_id := item.job_id,
          status := TargetStatus.PENDING }
      { db := { db2 with targets := db2.targets ++ [target] },
        fresh := fresh2 + 1,
        counters := { s.counters with created := s.counters.created + 1 } }

/-- Result of the `upload_targets` route. -/
inductive UploadResult
  | notFound
  | badStatus
  | done (counters : UploadCounters)
  deriving DecidableEq, Repr

/-- `upload_targets` (`campaigns.py` lines 185-312): org-scoped campaign
lookup, status guard, the per-item loop, then DRAFT→READY when targets
were created. -/
def upload_targets (org_id campaign_id : String)
    (items : List TargetCreateItem) (fresh : Nat) (db : Database) :
    Database × UploadResult :=
  match db.campaigns.find? (fun c => c.id == campaign_id && c.org_id == org_id) with
  | none => (db, .notFound)
  | some campaign =>
      if campaign.status ≠ CampaignStatus.DRAFT ∧
          campaign.status ≠ CampaignStatus.READY then
        (db, .badStatus)
      else
        let final := items.foldl (uploadTargetItem org_id campaign_id)
          { db := db, counters := {}, fresh := fresh }
        let db' := if final.counters.created > 0 ∧
            campaign.status = CampaignStatus.DRAFT then
          { final.db with campaigns := final.db.campaigns.map (fun c =>
              if c.id == campaign.id then
                { c with status := CampaignStatus.READY } else c) }
        else final.db
        (db', .done final.counters)

/-- Result of the `start_campaign` route. -/
inductive StartResult
  | notFound
  | badStatus (s : CampaignStatus)
  | noPending
  | started (recipients : Nat)
  | providerFailed (detail : String)
  deriving DecidableEq, Repr

/-- The PENDING targets selected by `start_campaign` (lines 342-352):
an inner join with `Customer` drops targets whose customer row is
missing. -/
def pendingTargetsOf (db : Database) (campaign_id : String) :
    List CampaignTarget :=
  db.targets.filter (fun t =>
    t.campaign_id == campaign_id && t.status == TargetStatus.PENDING
      && db.customers.any (fun c => c.id == t.customer_id))

/-- `start_campaign` (`campaigns.py` lines 315-404).  The provider call
`ElevenLabsClient.create_batch_call` is abstracted as
`provider : Option String` — `some batch_id` when the request succeeds,
`none` when it raises. -/
def start_campaign (org_id campaign_id : String) (provider : Option String)
    (db : Database) : Database × StartResult :=
  match db.campaigns.find? (fun c => c.id == campaign_id && c.org_id == org_id) with
  | none => (db, .notFound)
  | some campaign =>
      if campaign.status ≠ CampaignStatus.READY ∧
          campaign.status ≠ CampaignStatus.PAUSED then
        (db, .badStatus campaign.status)
      else
        let pending := pendingTargetsOf db campaign_id
        if pending.isEmpty then (db, .noPending)
        else
          match provider with
          | some batch_id =>
              ({ db with
                  campaigns := db.campaigns.map (fun c =>
                    if c.id == campaign.id then
                      { c with status := CampaignStatus.RUNNING,
                               eleven_batch_id := some batch_id }
                    else c),
                  targets := db.targets.map (fun t =>
                    if pending.any (fun q => q.id == t.id) then
                      { t with status := TargetStatus.IN_PROGRESS }
                    else t) },
               .started pending.length)
          | none =>
              ({ db with
                  campaigns := db.campaigns.map (fun c =>
                    if c.id == campaign.id then
                      { c with status := CampaignStatus.FAILED }
                    else c) },
               .providerFailed "Failed to start campaign")

end Db

namespace FileApi

/-! ### File-storage state (`app/services/storage.py`) and the
`/api/webhooks/elevenlabs` route (`app/api/routes/webhooks.py`)

Each `storage.*` call is one durable write (atomic rename or locked
append), so the handler is modelled as the ordered list of writes it
performs; the final state folds them over the starting state, and a
crash after `k` writes leaves the fold of the first `k`. -/

/-- `Call` of `app/models/domain.py`; the `metadata` dict is flattened
into the `meta_*` fields the engine reads and writes. -/
structure Call where
  id : String
  campaign_id : String
  row_number : Nat
  phone : String
  customer_name : String := ""
  status : CallStatus := .pending
  outcome : CallOutcome := .unknown
  elevenlabs_call_id : Option String := none
  elevenlabs_batch_id : Option String := none
  created_at : Nat
  queued_at : Option Nat := none
  started_at : Option Nat := none
  ended_at : Option Nat := none
  duration_seconds : Option Int := none
  transcript : Option String := none
  summary : Option String := none
  recording_url : Option String := none
  sentiment : Option String := none
  error_message : Option String := none
  retry_count : Nat := 0
  meta_vehicle_interest : Option String := none
  meta_email : Option String := none
  meta_booked_date : Option String := none
  meta_booked_time : Option String := none
  meta_confirmed : Option Bool := none
  meta_callback_time : Option String := none
  meta_notes : Option String := none
  deriving DecidableEq, Repr

/-- `Campaign` of `app/models/domain.py`. -/
structure Campaign where
  id : String
  name : String := ""
  status : CampaignStatus := .draft
  sheet_id : String
  sheet_range : String := ""
  agent_id : String := ""
  phone_number_id : String := ""
  batch_size : Nat := 50
  total_leads : Nat := 0
  calls_made : Nat := 0
  calls_completed : Nat := 0
  calls_successful : Nat := 0
  created_at : Nat
  started_at : Option Nat := none
  completed_at : Option Nat := none
  deriving DecidableEq, Repr

/-- One `sheets.update_row` call (the write-back of results to the
Google Sheet): its arguments and the update dict the route builds.
`booked_date`/`booked_time` are present only for APPOINTMENT_SET. -/
structure SheetUpdate where
  spreadsheet_id : String
  sheet_name : String
  row_number : Nat
  status : String
  outcome : String
  summary : String
  last_call_time : Nat
  attempts : Nat
  booked_date : Option String := none
  booked_time : Option String := none
  deriving DecidableEq, Repr

/-- The file-storage state: the calls file, the campaigns file, the
webhook dedup index (ids newest first) and the log of sheet writes. -/
structure FsState where
  calls : List Call := []
  campaigns : List Campaign := []
  webhook_dedup : List String := []
  sheet_updates : List SheetUpdate := []
  deriving DecidableEq, Repr

/-- `storage.check_webhook_processed`. -/
def check_webhook_processed (st : FsState) (webhook_id : String) : Bool :=
  st.webhook_dedup.contains webhook_id

/-- `storage.mark_webhook_processed`: dict insert keyed on the id, then
eviction to the 10000 newest entries (the fresh insert is newest). -/
def mark_webhook_processed (dedup : List String) (webhook_id : String) :
    List String :=
  (webhook_id :: dedup.erase webhook_id).take 10000

/-- `storage.update_call`: overwrite the record with the matching id. -/
def updateCallIn (calls : List Call) (c : Call) : List Call :=
  calls.map (fun x => if x.id == c.id then c else x)

/-- `storage.update_campaign`: overwrite the record with the matching id. -/
def updateCampaignIn (campaigns : List Campaign) (c : Campaign) :
    List Campaign :=
  campaigns.map (fun x => if x.id == c.id then c else x)

/-- One durable write performed by the webhook route, in program order. -/
inductive FileEffect
  | updateCall (c : Call)
  | markWebhook (webhook_id : String)
  | updateCampaign (c : Campaign)
  | sheetWrite (u : SheetUpdate)
  deriving DecidableEq, Repr

/-- Apply one write to the stored state. -/
def applyEffect (st : FsState) : FileEffect → FsState
  | .updateCall c => { st with calls := updateCallIn st.calls c }
  | .markWebhook wid =>
      { st with webhook_dedup := mark_webhook_processed st.webhook_dedup wid }
  | .updateCampaign c => { st with campaigns := updateCampaignIn st.campaigns c }
  | .sheetWrite u => { st with sheet_updates := st.sheet_updates ++ [u] }

/-- `verify_elevenlabs_signature` (`app/services/webhook_verify.py`):
unconfigured secret skips, missing signature fails, otherwise the
lower-cased hex digests are compared in constant time. -/
def verify_elevenlabs_signature (mac : String → String → String)
    (payload signature secret : String) : Bool :=
  if secret == "" then true
  else if signature == "" then false
  else pyLower (mac secret payload) == pyLower signature

/-- HTTP-level result of the file-storage webhook route. -/
inductive WebhookResp
  | unauthorized
  | ignored (reason : String)
  | duplicate (call_id : String)
  | processed (call_id : String) (outcome : String)
  deriving DecidableEq, Repr

/-- The `call.completed` branch of the route (`webhooks.py` lines
113-137). -/
def callCompletedUpdate (nowTs : Nat) (d : WebhookData) (call : Call) : Call :=
  let an := d.analysis.getD {}
  let booking := extract_booking_info d
  { call with
    status := CallStatus.completed
    ended_at := some nowTs
    transcript := some (d.transcript.getD "")
    summary := some (d.summary.getD "")
    recording_url := d.recording_url
    duration_seconds := firstTruthyInt [d.duration_seconds, d.duration]
    outcome := map_outcome d
    sentiment := firstTruthyStr [an.sentiment, an.sentiment_label]
    meta_booked_date := booking.booked_date
    meta_booked_time := booking.booked_time
    meta_confirmed := some booking.confirmed
    meta_callback_time := booking.callback_time
    meta_notes := booking.notes }

/-- The event-type dispatch of the route (`webhooks.py` lines 110-158). -/
def callAfterEvent (nowTs : Nat) (d : WebhookData) (call : Call) : Call :=
  let event_type := pyLower (d.type.getD "")
  if event_type ∈ ["call.completed", "conversation.completed"] ∨
      d.transcript.isSome then
    callCompletedUpdate nowTs d call
  else if event_type ∈ ["call.failed", "conversation.failed"] then
    { call with
        status := CallStatus.failed
        error_message :=
          some ((firstTruthyStr [d.error, d.failure_reason]).getD "Call failed")
        ended_at := some nowTs }
  else if event_type ∈ ["call.no_answer", "no_answer"] then
    { call with status := CallStatus.no_answer, ended_at := some nowTs }
  else if event_type ∈ ["call.busy", "busy"] then
    { call with status := CallStatus.busy, ended_at := some nowTs }
  else
    let c := if strTruthy d.transcript then
        { call with transcript := d.transcript } else call
    let c := if strTruthy d.summary then { c with summary := d.summary } else c
    { c with ended_at := some nowTs }

/-- The sheet write-back dict of the route (lines 174-194). -/
def sheetUpdateFor (settingsSheetId : String) (nowTs : Nat)
    (campaign? : Option Campaign) (call : Call) : SheetUpdate :=
  let base : SheetUpdate :=
    { spreadsheet_id := match campaign? with
        | some cg => cg.sheet_id
        | none => settingsSheetId
      sheet_name := "Sheet1"
      row_number := call.row_number
      status := call.status.value
      outcome := call.outcome.value
      summary := call.summary.getD ""
      last_call_time := nowTs
      attempts := call.retry_count + 1 }
  if call.outcome = CallOutcome.appointment_set then
    { base with booked_date := some (call.meta_booked_date.getD ""),
                booked_time := some (call.meta_booked_time.getD "") }
  else base

/-- `elevenlabs_webhook` (`webhooks.py` lines 60-206), as the list of
durable writes it performs plus the HTTP response.  Note the signature
gate: verification runs only when a secret is configured AND the header
is present (a missing header skips it). -/
def elevenlabs_webhook_effects (mac : String → String → String)
    (settingsSheetId : String) (nowTs : Nat) (secret : String)
    (x_elevenlabs_signature : Option String) (body : String)
    (d : WebhookData) (st : FsState) : List FileEffect × WebhookResp :=
  if secret ≠ "" ∧ strTruthy x_elevenlabs_signature = true ∧
      verify_elevenlabs_signature mac body
        (x_elevenlabs_signature.getD "") secret = false then
    ([], .unauthorized)
  else
    match firstTruthyStr [d.call_id, d.conversation_id] with
    | none => ([], .ignored "no call_id")
    | some cid =>
        let webhook_id := "el_" ++ cid
        if check_webhook_processed st webhook_id then ([], .duplicate cid)
        else
          match st.calls.find? (fun c => c.elevenlabs_call_id == some cid) with
          | none => ([], .ignored "call not found")
          | some call =>
              let call' := callAfterEvent nowTs d call
              let campaign? := st.campaigns.find? (fun c =>
                c.id == call'.campaign_id)
              let campaignEffects := match campaign? with
                | some cg =>
                    let cg1 := { cg with
                      calls_completed := cg.calls_completed + 1 }
                    let cg2 := if call'.outcome = CallOutcome.appointment_set ∨
                        call'.outcome = CallOutcome.callback_requested then
                        { cg1 with
                          calls_successful := cg1.calls_successful + 1 }
                      else cg1
                    [FileEffect.updateCampaign cg2]
                | none => []
              ([FileEffect.updateCall call', FileEffect.markWebhook webhook_id]
                 ++ campaignEffects
                 ++ [FileEffect.sheetWrite
                      (sheetUpdateFor settingsSheetId nowTs campaign? call')],
               .processed call.id call'.outcome.value)

/-- The route end to end: fold the writes over the starting state. -/
def elevenlabs_webhook (mac : String → String → String)
    (settingsSheetId : String) (nowTs : Nat) (secret : String)
    (x_elevenlabs_signature : Option String) (body : String)
    (d : WebhookData) (st : FsState) : FsState × WebhookResp :=
  let r := elevenlabs_webhook_effects mac settingsSheetId nowTs secret
    x_elevenlabs_signature body d st
  (r.1.foldl applyEffect st, r.2)

/-! ### `CampaignService.start_campaign` (`app/services/campaign.py`
lines 66-136)

`elevenlabs.initiate_batch_calls` is abstracted as the list of
per-recipient results it returns (`internal_call_id`, optional `error`,
optional provider `call_id`). -/

/-- One element of the provider batch result. -/
structure BatchItemResult where
  internal_call_id : Option String := none
  error : Option String := none
  call_id : Option String := none
  deriving DecidableEq, Repr

/-- Result of `CampaignService.start_campaign`; `error` models the
raised `ValueError`s. -/
inductive ServiceStartResult
  | error (msg : String)
  | completedNoPending
  | running (queued failedCount : Nat)
  deriving DecidableEq, Repr

/-- Stable descending insertion by `created_at`, mirroring
`calls.sort(key=..., reverse=True)` in `storage.get_calls`. -/
def insertByCreatedDesc (c : Call) : List Call → List Call
  | [] => [c]
  | x :: xs =>
      if x.created_at ≥ c.created_at then x :: insertByCreatedDesc c xs
      else c :: x :: xs

/-- `storage.get_calls` filtered on campaign and PENDING status, sorted
newest first, truncated to `limit`. -/
def getPendingCalls (st : FsState) (campaign_id : String) (limit : Nat) :
    List Call :=
  ((st.calls.filter (fun c =>
      c.campaign_id == campaign_id && c.status == CallStatus.pending)).foldl
    (fun acc c => insertByCreatedDesc c acc) []).take limit

/-- Per-result call update of the batch loop (lines 110-129): a truthy
`error` marks the call FAILED, otherwise it is QUEUED with the provider
call id; results without a known internal id are skipped. -/
def applyBatchResult (nowTs : Nat) (acc : FsState × Nat × Nat)
    (r : BatchItemResult) : FsState × Nat × Nat :=
  match r.internal_call_id with
  | none => acc
  | some iid =>
      match acc.1.calls.find? (fun c => c.id == iid) with
      | none => acc
      | some call =>
          if strTruthy r.error then
            let c := { call with status := CallStatus.failed,
                                 error_message := r.error }
            ({ acc.1 with calls := updateCallIn acc.1.calls c },
             acc.2.1, acc.2.2 + 1)
          else
            let c := { call with status := CallStatus.queued,
                                 elevenlabs_call_id := r.call_id,
                                 queued_at := some nowTs }
            ({ acc.1 with calls := updateCallIn acc.1.calls c },
             acc.2.1 + 1, acc.2.2)

/-- `CampaignService.start_campaign`: the only status guard is
"already running"; the campaign is marked RUNNING before the provider
call, and per-call provider failures leave it RUNNING. -/
def service_start_campaign (nowTs : Nat) (results : List BatchItemResult)
    (campaign_id : String) (st : FsState) : FsState × ServiceStartResult :=
  match st.campaigns.find? (fun c => c.id == campaign_id) with
  | none => (st, .error "Campaign not found")
  | some campaign =>
      if campaign.status = CampaignStatus.running then
        (st, .error "Campaign is already running")
      else
        let cg1 := { campaign with status := CampaignStatus.running,
                                   started_at := some nowTs }
        let st1 := { st with campaigns := updateCampaignIn st.campaigns cg1 }
        let pending := getPendingCalls st1 campaign_id campaign.batch_size
        if pending.isEmpty then
          let cg2 := { cg1 with status := CampaignStatus.completed,
                                completed_at := some nowTs }
          ({ st1 with campaigns := updateCampaignIn st1.campaigns cg2 },
           .completedNoPending)
        else
          let folded := results.foldl (applyBatchResult nowTs) (st1, 0, 0)
          let cg3 := { cg1 with calls_made := cg1.calls_made + folded.2.1 }
          ({ folded.1 with
              campaigns := updateCampaignIn folded.1.campaigns cg3 },
           .running folded.2.1 folded.2.2)

end FileApi

/-! ## Helper predicates used by the statements -/

/-- A terminal target status: DONE, FAILED or OPTED_OUT. -/
def isTerminal (s : TargetStatus) : Bool :=
  s == TargetStatus.DONE || s == TargetStatus.FAILED
    || s == TargetStatus.OPTED_OUT

/-- Number of DNC entries for one (org_id, phone) pair. -/
def dncCount (dnc : List Db.DncEntry) (org ph : String) : Nat :=
  (dnc.filter (fun e => e.org_id == org && e.phone_e164 == ph)).length

/-! ## Concrete fixtures for counterexamples and witnesses -/

/-- A concrete stand-in for the HMAC-SHA256 hex-digest oracle. -/
def mac0 : String → String → String :=
  fun secret body => "hmac-" ++ secret ++ "-" ++ body

/-- A concrete stand-in for `datetime.fromisoformat`: parses exactly the
one well-formed string the fixtures use. -/
def fi0 : String → Option PyDateTime :=
  fun s => if s == "2024-03-01T10:00" then
    some { year := 2024, month := 3, day := 1, hour := 10, minute := 0, second := 0 }
  else none

/-- `datetime.now(timezone.utc)` of the fixture run. -/
def now0 : PyDateTime :=
  { year := 2024, month := 2, day := 20, hour := 14, minute := 30, second := 5 }

namespace Db

def cust1 : Customer :=
  { id := "cu1", org_id := "org1", phone_e164 := "+15551230000" }

def camp1 : Campaign :=
  { id := "cg1", org_id := "org1", branch_id := some "br1",
    status := CampaignStatus.RUNNING, retry_policy := some {} }

def tgt1 : CampaignTarget :=
  { id := "t1", campaign_id := "cg1", customer_id := "cu1",
    status := TargetStatus.IN_PROGRESS, attempts_count := 0 }

/-- One running campaign with one in-progress target and its customer. -/
def dbBase : Database :=
  { campaigns := [camp1], targets := [tgt1], customers := [cust1] }

/-- A successful-booking payload: structured `appointment_booked` flag,
parseable date and time, metadata pointing at the target. -/
def pBooked : ElevenLabsPostCallPayload :=
  { conversation_id := "conv1", status := some "completed",
    analysis := some { appointment_booked := some true,
                       pickup_date := some "2024-03-01",
                       pickup_time := some "10:00" },
    metadata := some { target_id := some "t1" } }

def tgtDone : CampaignTarget :=
  { id := "t2", campaign_id := "cg1", customer_id := "cu1",
    status := TargetStatus.DONE, attempts_count := 1 }

/-- A database whose only target is already in the terminal state DONE. -/
def dbDone : Database :=
  { campaigns := [camp1], targets := [tgtDone], customers := [cust1] }

/-- An opt-out payload resolving to the DONE target. -/
def pOptOut : ElevenLabsPostCallPayload :=
  { conversation_id := "conv2",
    analysis := some { opt_out := some true },
    metadata := some { target_id := some "t2" } }

def campMax2 : Campaign :=
  { id := "cg2", org_id := "org1", status := CampaignStatus.RUNNING,
    retry_policy := some { max_attempts := 2 } }

def tgtOnce : CampaignTarget :=
  { id := "t7", campaign_id := "cg2", customer_id := "cu1",
    status := TargetStatus.IN_PROGRESS, attempts_count := 1 }

/-- Campaign with retry-policy max_attempts = 2; its target already has
one attempt. -/
def dbMax2 : Database :=
  { campaigns := [campMax2], targets := [tgtOnce], customers := [cust1] }

/-- A second consecutive no-answer webhook for that target: no analysis
object, raw status `no_answer`. -/
def pNoAnswer : ElevenLabsPostCallPayload :=
  { conversation_id := "conv7", status := some "no_answer",
    metadata := some { target_id := some "t7" } }

/-- A booking payload whose pickup date does not parse. -/
def pGarbageDate : ElevenLabsPostCallPayload :=
  { conversation_id := "conv9",
    analysis := some { appointment_booked := some true,
                       pickup_date := some "not-a-date" },
    metadata := some { target_id := some "t1" } }

def callA : Call :=
  { id := "ca1", org_id := some "org1", customer_id := some "cu1",
    status := CallStatus.IN_PROGRESS,
    eleven_conversation_id := some "convA" }

/-- A database holding an existing call for conversation `convA`. -/
def dbWithCall : Database :=
  { campaigns := [camp1], targets := [tgt1], customers := [cust1],
    calls := [callA] }

/-- An opt-out payload for the existing call, carrying no metadata, so
no target can be resolved. -/
def pNoMeta : ElevenLabsPostCallPayload :=
  { conversation_id := "convA",
    analysis := some { opt_out := some true } }

/-- An item whose phone is on the fixture DNC list. -/
def itemDnc : TargetCreateItem := { phone := "+15551230000" }

/-- A database whose DNC list already contains the customer phone. -/
def dbDnc : Database :=
  { campaigns := [camp1], targets := [tgt1], customers := [cust1],
    dnc := [{ org_id := "org1", phone_e164 := "+15551230000" }] }

def custReady : Customer :=
  { id := "cu8", org_id := "org1", phone_e164 := "+15557770000" }

def tgtReady : CampaignTarget :=
  { id := "t8", campaign_id := "cg8", customer_id := "cu8",
    status := TargetStatus.PENDING, attempts_count := 0 }

def campReady : Campaign :=
  { id := "cg8", org_id := "org1", status := CampaignStatus.READY }

/-- A READY campaign with one PENDING target, ready to start. -/
def dbReady : Database :=
  { campaigns := [campReady], targets := [tgtReady], customers := [custReady] }

end Db

namespace FileApi

def fcall1 : Call :=
  { id := "fc1", campaign_id := "fcg1", row_number := 2,
    phone := "+15551230000", created_at := 1,
    status := CallStatus.queued, elevenlabs_call_id := some "x1" }

def fcamp1 : Campaign :=
  { id := "fcg1", sheet_id := "sheet1", created_at := 0,
    status := CampaignStatus.running }

/-- File-storage state with one queued call and its running campaign. -/
def fstBase : FsState := { calls := [fcall1], campaigns := [fcamp1] }

/-- A completed-call webhook body whose intent mentions a pickup. -/
def dCompleted : WebhookData :=
  { call_id := some "x1", type := some "call.completed",
    transcript := some "hello",
    analysis := some { intent := some "please book a pickup" } }

/-- A webhook body carrying the structured `opt_out` flag AND an intent
that matches the appointment keywords. -/
def dFlagAndIntent : WebhookData :=
  { call_id := some "x2",
    analysis := some { intent := some "please book an appointment",
                       opt_out := some true } }

/-- A DRAFT campaign with no calls at all. -/
def fdraft : Campaign :=
  { id := "fcgD", sheet_id := "sheetD", created_at := 0,
    status := CampaignStatus.draft }

def fstDraft : FsState := { campaigns := [fdraft] }

end FileApi

/-! ## Theorems -/

/-! ### Shared helper lemmas -/

theorem dncAfterOptOut_none (d : List Db.DncEntry) (o : CallOutcome) :
    Db.dncAfterOptOut d o none = d := by
  unfold Db.dncAfterOptOut; split <;> rfl

theorem appointmentsAfterBooked_none (fi : String → Option PyDateTime)
    (now : PyDateTime) (a : List Db.Appointment) (o : CallOutcome)
    (cg : Option Db.Campaign) (t : Option Db.CampaignTarget) (c : Db.Call)
    (an : Option ElevenLabsAnalysis) :
    Db.appointmentsAfterBooked fi now a o none cg t c an = a := by
  unfold Db.appointmentsAfterBooked; split <;> rfl

theorem auditAfterWebhook_none (a : List Db.AuditLog) (c : Db.Call)
    (o : CallOutcome) (cid : String) :
    Db.auditAfterWebhook a none c o cid = a := rfl

theorem applyEffect_dedup_updateCall (s : FileApi.FsState) (c : FileApi.Call) :
    (FileApi.applyEffect s (FileApi.FileEffect.updateCall c)).webhook_dedup
      = s.webhook_dedup := rfl

theorem applyEffect_dedup_updateCampaign (s : FileApi.FsState)
    (c : FileApi.Campaign) :
    (FileApi.applyEffect s (FileApi.FileEffect.updateCampaign c)).webhook_dedup
      = s.webhook_dedup := rfl

theorem applyEffect_dedup_sheetWrite (s : FileApi.FsState)
    (u : FileApi.SheetUpdate) :
    (FileApi.applyEffect s (FileApi.FileEffect.sheetWrite u)).webhook_dedup
      = s.webhook_dedup := rfl

theorem contains_mark_webhook (l : List String) (wid : String) :
    (FileApi.mark_webhook_processed l wid).contains wid = true := by
  unfold FileApi.mark_webhook_processed
  have h10000 : (10000 : Nat) = 9999 + 1 := rfl
  rw [h10000, List.take_succ_cons]
  simp [List.contains_cons]

/-- The DNC insert-if-absent step never pushes a pair above one entry. -/
theorem dncCount_afterOptOut_le (d : List Db.DncEntry) (o : CallOutcome)
    (cust? : Option Db.Customer) (org ph : String) :
    dncCount (Db.dncAfterOptOut d o cust?) org ph
      ≤ max (dncCount d org ph) 1 := by
  unfold Db.dncAfterOptOut
  split
  · cases cust? with
    | none => exact le_max_left _ _
    | some c =>
        cases hany : d.any (fun e =>
            e.org_id == c.org_id && e.phone_e164 == c.phone_e164) with
        | true => simp only [hany]; exact le_max_left _ _
        | false =>
            simp only [hany, Bool.false_eq_true, if_false]
            unfold dncCount
            rw [List.filter_append, List.length_append]
            by_cases hm : (c.org_id == org && c.phone_e164 == ph) = true
            · have horg : c.org_id = org := by
                have := (Bool.and_eq_true _ _).mp hm
                exact eq_of_beq this.1
              have hph : c.phone_e164 = ph := by
                have := (Bool.and_eq_true _ _).mp hm
                exact eq_of_beq this.2
              have hnil : d.filter (fun e =>
                  e.org_id == org && e.phone_e164 == ph) = [] := by
                rw [List.filter_eq_nil_iff]
                intro e he
                have := (List.any_eq_false.mp hany) e he
                subst horg hph
                simpa using this
              simp [hnil, hm]
            · have hm' : ((fun e => e.org_id == org && e.phone_e164 == ph)
                  ({ org_id := c.org_id, phone_e164 := c.phone_e164,
                     reason := some "Customer opted out during call",
                     source := "AI_CALL" } : Db.DncEntry)) = false := by
                simpa using hm
              simp only [List.filter, hm']
              exact le_max_left _ _
  · exact le_max_left _ _

/-! ### Claim theorems (continued) -/

/-- C2, amended claim.  The target-update block of the webhook handler
never re-opens a terminal target to a non-terminal status: if the
target is DONE, FAILED or OPTED_OUT before the webhook, it is still in
one of those terminal statuses afterwards — but its attempts_count is
incremented all the same (and, as the counterexample shows, its
terminal status may be rewritten to a different terminal status). -/
theorem C2_amended (t : Db.CampaignTarget) (o : CallOutcome) (ts : Nat)
    (h : isTerminal t.status = true) :
    isTerminal (Db.updateTargetOnWebhook t o ts).status = true
  ∧ (Db.updateTargetOnWebhook t o ts).attempts_count = t.attempts_count + 1 := by
  simp only [Db.updateTargetOnWebhook]
  constructor
  · split
    · rfl
    · split
      · rfl
      · split
        · rfl
        · exact h
  · split
    · rfl
    · split
      · rfl
      · split <;> rfl

/-- C2, witness for the amended claim at a concrete input: the DONE
fixture target stays terminal and its counter is incremented. -/
theorem C2_amended_witness :
    isTerminal Db.tgtDone.status = true
  ∧ (isTerminal (Db.updateTargetOnWebhook Db.tgtDone CallOutcome.OPT_OUT 7).status = true
     ∧ (Db.updateTargetOnWebhook Db.tgtDone CallOutcome.OPT_OUT 7).attempts_count
         = Db.tgtDone.attempts_count + 1) :=
  ⟨by decide, C2_amended Db.tgtDone CallOutcome.OPT_OUT 7 (by decide)⟩

/-- C4, amended claim.  In the DATABASE-backed webhook handler the claim
holds as stated: when a secret is configured and the signature header
is missing, or present but different from the HMAC hex digest of the
raw body, the route answers 401 and the database is returned untouched
(no dedup index exists in this handler at all).  In the file-storage
route only a present-but-wrong signature is rejected; a missing header
skips verification (see the counterexample). -/
theorem C4_amended (mac : String → String → String) (secret : String)
    (sig : Option String) (body : String)
    (parse : String → Option Db.ElevenLabsPostCallPayload)
    (fi : String → Option PyDateTime) (now : PyDateTime) (ts : Nat)
    (ncid : String) (db : Db.Database)
    (hsecret : secret ≠ "")
    (hsig : sig = none ∨ ∃ s, sig = some s ∧ mac secret body ≠ s) :
    (Db.handle_post_call_webhook mac secret sig body parse fi now ts ncid db).1 = db
  ∧ ∃ detail,
      (Db.handle_post_call_webhook mac secret sig body parse fi now ts ncid db).2
        = Db.WebhookResponse.unauthorized detail := by
  have hs : (secret == "") = false := by
    simpa using hsecret
  rcases hsig with hnone | ⟨s, hsome, hne⟩
  · subst hnone
    unfold Db.handle_post_call_webhook
    rw [hs]
    exact ⟨rfl, "Missing webhook signature", rfl⟩
  · subst hsome
    have hv : Db.verify_webhook_signature mac body s secret = false := by
      unfold Db.verify_webhook_signature
      rw [hs]
      simpa using hne
    unfold Db.handle_post_call_webhook
    rw [hs]
    simp only [hv]
    exact ⟨rfl, "Invalid webhook signature", rfl⟩

/-- C4, witness: concrete rejected delivery — secret configured, wrong
signature, database unchanged, 401 returned. -/
theorem C4_amended_witness :
    "secret1" ≠ ""
  ∧ ((Db.handle_post_call_webhook mac0 "secret1" (some "wrong") "body"
        (fun _ => some Db.pBooked) fi0 now0 1 "cx" Db.dbBase).1 = Db.dbBase
     ∧ ∃ detail,
        (Db.handle_post_call_webhook mac0 "secret1" (some "wrong") "body"
          (fun _ => some Db.pBooked) fi0 now0 1 "cx" Db.dbBase).2
          = Db.WebhookResponse.unauthorized detail) :=
  ⟨by decide,
   C4_amended mac0 "secret1" (some "wrong") "body" (fun _ => some Db.pBooked)
     fi0 now0 1 "cx" Db.dbBase (by decide)
     (Or.inr ⟨"wrong", rfl, by decide⟩)⟩

/-- C6, amended claim.  Each classifier is a pure total function, but
the claimed three-tier precedence is split across the two
implementations.  The database-backed `map_call_outcome` applies the
structured flags in order appointment_booked → BOOKED, opt_out →
OPT_OUT, callback_requested → CALLBACK_REQUESTED, falls back to OTHER
when an analysis object is present without flags, and maps the raw
status no_answer/busy/voicemail only when no analysis object came; it
has no free-text keyword tier.  The file-storage `map_outcome` has only
the keyword tier above raw status and ignores the structured flags
entirely (last conjunct: rewriting all three flags never changes its
result). -/
theorem C6_amended :
    (∀ (a : ElevenLabsAnalysis) (st : Option String),
        a.appointment_booked = some true →
        map_call_outcome (some a) st = CallOutcome.BOOKED)
  ∧ (∀ (a : ElevenLabsAnalysis) (st : Option String),
        a.appointment_booked ≠ some true → a.opt_out = some true →
        map_call_outcome (some a) st = CallOutcome.OPT_OUT)
  ∧ (∀ (a : ElevenLabsAnalysis) (st : Option String),
        a.appointment_booked ≠ some true → a.opt_out ≠ some true →
        a.callback_requested = some true →
        map_call_outcome (some a) st = CallOutcome.CALLBACK_REQUESTED)
  ∧ (∀ (a : ElevenLabsAnalysis) (st : Option String),
        a.appointment_booked ≠ some true → a.opt_out ≠ some true →
        a.callback_requested ≠ some true →
        map_call_outcome (some a) st = CallOutcome.OTHER)
  ∧ (map_call_outcome none (some "no_answer") = CallOutcome.NO_ANSWER
      ∧ map_call_outcome none (some "busy") = CallOutcome.BUSY
      ∧ map_call_outcome none (some "voicemail") = CallOutcome.VOICEMAIL)
  ∧ (∀ st : Option String,
        st ≠ some "no_answer" → st ≠ some "busy" → st ≠ some "voicemail" →
        map_call_outcome none st = CallOutcome.OTHER)
  ∧ (∀ (d : FileApi.WebhookData) (b1 b2 b3 : Option Bool),
        FileApi.map_outcome { d with analysis := d.analysis.map (fun a =>
          { a with appointment_booked := b1, opt_out := b2,
                   callback_requested := b3 }) } = FileApi.map_outcome d) := by
  refine ⟨?_, ?_, ?_, ?_, ⟨by decide, by decide, by decide⟩, ?_, ?_⟩
  · intro a st h; simp [map_call_outcome, h]
  · intro a st h1 h2; simp [map_call_outcome, h1, h2]
  · intro a st h1 h2 h3; simp [map_call_outcome, h1, h2, h3]
  · intro a st h1 h2 h3; simp [map_call_outcome, h1, h2, h3]
  · intro st h1 h2 h3; simp [map_call_outcome, h1, h2, h3]
  · intro d b1 b2 b3
    cases hd : d.analysis <;> simp [FileApi.map_outcome, hd]

/-- C6, witness: the amended precedence applied at concrete inputs —
opt_out beats a set callback flag, and flag rewriting leaves the
file-storage classifier unchanged on the fixture payload. -/
theorem C6_amended_witness :
    map_call_outcome
        (some { opt_out := some true, callback_requested := some true })
        (some "no_answer") = CallOutcome.OPT_OUT
  ∧ FileApi.map_outcome { FileApi.dFlagAndIntent with
      analysis := FileApi.dFlagAndIntent.analysis.map (fun a =>
        { a with appointment_booked := some true, opt_out := none,
                 callback_requested := some true }) }
      = FileApi.map_outcome FileApi.dFlagAndIntent :=
  ⟨C6_amended.2.1 { opt_out := some true, callback_requested := some true }
      (some "no_answer") (by decide) rfl,
   C6_amended.2.2.2.2.2.2 FileApi.dFlagAndIntent (some true) none (some true)⟩

/-- C1, counterexample.  The database-backed webhook handler has no
deduplication gate: delivering the very same booking payload twice
leaves two AuditLog entries and two Appointments, increments the target
attempt counter twice, and the second delivery answers with the normal
success message rather than a "duplicate" no-op — so reconciliation is
not idempotent and the final state after two deliveries differs from
the state after one. -/
theorem C1_counterexample :
    (Db.reconcilePostCall fi0 now0 100 "cnew1"
        (Db.reconcilePostCall fi0 now0 100 "cnew0" Db.dbBase Db.pBooked).1
        Db.pBooked).1
      ≠ (Db.reconcilePostCall fi0 now0 100 "cnew0" Db.dbBase Db.pBooked).1
  ∧ (Db.reconcilePostCall fi0 now0 100 "cnew1"
        (Db.reconcilePostCall fi0 now0 100 "cnew0" Db.dbBase Db.pBooked).1
        Db.pBooked).1.audit.length = 2
  ∧ (Db.reconcilePostCall fi0 now0 100 "cnew1"
        (Db.reconcilePostCall fi0 now0 100 "cnew0" Db.dbBase Db.pBooked).1
        Db.pBooked).1.appointments.length = 2
  ∧ (Db.reconcilePostCall fi0 now0 100 "cnew1"
        (Db.reconcilePostCall fi0 now0 100 "cnew0" Db.dbBase Db.pBooked).1
        Db.pBooked).2 = "Webhook processed successfully" := by
  refine ⟨?_, by decide, by decide, by decide⟩
  decide

/-- C2, counterexample.  A target already in the terminal status DONE is
rewritten by a later opt-out webhook: its status becomes OPTED_OUT and
its attempts_count is incremented, contradicting the claim that a
terminal target is left unchanged. -/
theorem C2_counterexample :
    ((Db.reconcilePostCall fi0 now0 7 "c2" Db.dbDone Db.pOptOut).1.targets.head?).map
        (·.status) = some TargetStatus.OPTED_OUT
  ∧ ((Db.reconcilePostCall fi0 now0 7 "c2" Db.dbDone Db.pOptOut).1.targets.head?).map
        (·.attempts_count) = some 2
  ∧ Db.dbDone.targets.head?.map (·.status) = some TargetStatus.DONE
  ∧ Db.dbDone.targets.head?.map (·.attempts_count) = some 1 := by
  refine ⟨by decide, by decide, by decide, by decide⟩

/-- C3, counterexample.  In the file-storage webhook route the dedup
mark is NOT the last step and the write set is not atomic: the route
performs four separate durable writes, the mark is the second of them,
a campaign-stats write follows it, and stopping after the first write
(a crash mid-reconciliation) leaves the call update persisted while the
webhook id is still unmarked. -/
theorem C3_counterexample :
    (FileApi.elevenlabs_webhook_effects mac0 "defsheet" 50 "" none "body"
        FileApi.dCompleted FileApi.fstBase).1.length = 4
  ∧ ((FileApi.elevenlabs_webhook_effects mac0 "defsheet" 50 "" none "body"
        FileApi.dCompleted FileApi.fstBase).1[1]?)
      = some (FileApi.FileEffect.markWebhook "el_x1")
  ∧ (match ((FileApi.elevenlabs_webhook_effects mac0 "defsheet" 50 "" none "body"
        FileApi.dCompleted FileApi.fstBase).1[2]?) with
      | some (FileApi.FileEffect.updateCampaign _) => true
      | _ => false) = true
  ∧ (((FileApi.elevenlabs_webhook_effects mac0 "defsheet" 50 "" none "body"
        FileApi.dCompleted FileApi.fstBase).1.take 1).foldl FileApi.applyEffect
        FileApi.fstBase).calls ≠ FileApi.fstBase.calls
  ∧ (((FileApi.elevenlabs_webhook_effects mac0 "defsheet" 50 "" none "body"
        FileApi.dCompleted FileApi.fstBase).1.take 1).foldl FileApi.applyEffect
        FileApi.fstBase).webhook_dedup = FileApi.fstBase.webhook_dedup := by
  refine ⟨by decide, by decide, by decide, by decide, by decide⟩

/-- C4, counterexample.  In the file-storage webhook route a configured
secret with a MISSING signature header does not yield HTTP 401: the
gate only verifies when the header is present, so the request is fully
processed and state is mutated. -/
theorem C4_counterexample :
    (FileApi.elevenlabs_webhook mac0 "defsheet" 50 "secret1" none "body"
        FileApi.dCompleted FileApi.fstBase).2
      = FileApi.WebhookResp.processed "fc1" "appointment_set"
  ∧ (FileApi.elevenlabs_webhook mac0 "defsheet" 50 "secret1" none "body"
        FileApi.dCompleted FileApi.fstBase).1 ≠ FileApi.fstBase := by
  refine ⟨by decide, by decide⟩

/-- C6, counterexample.  The file-storage classifier `map_outcome`
ignores the structured analysis flags entirely: a payload carrying
`opt_out: true` together with an appointment-sounding intent classifies
by the keyword tier to `appointment_set`, so structured flags do not
take priority over free-text intent matching. -/
theorem C6_counterexample :
    FileApi.map_outcome FileApi.dFlagAndIntent
      = FileApi.CallOutcome.appointment_set
  ∧ FileApi.dFlagAndIntent.analysis.bind (·.opt_out) = some true
  ∧ ¬ (∀ d : FileApi.WebhookData, d.analysis.bind (·.opt_out) = some true →
        FileApi.map_outcome d = FileApi.CallOutcome.do_not_call) := by
  refine ⟨by decide, by decide, fun h => ?_⟩
  exact absurd (h FileApi.dFlagAndIntent (by decide)) (by decide)

/-- C7, code evaluation at the failing input.  The campaign retry policy
says max_attempts = 2, the target receives its second consecutive
NO_ANSWER webhook, its attempts_count reaches 2 — yet its status stays
IN_PROGRESS, because the handler compares against the hard-coded
literal 3 (`attempts_count >= 3`) instead of the campaign policy,
despite the inline comment "Max attempts from retry policy". -/
theorem C7_code_divergence :
    ((Db.reconcilePostCall fi0 now0 7 "c7" Db.dbMax2 Db.pNoAnswer).1.targets.head?).map
        (·.attempts_count) = some 2
  ∧ (Db.campMax2.retry_policy.getD {}).max_attempts = 2
  ∧ ((Db.reconcilePostCall fi0 now0 7 "c7" Db.dbMax2 Db.pNoAnswer).1.targets.head?).map
        (·.status) = some TargetStatus.IN_PROGRESS
  ∧ ((Db.reconcilePostCall fi0 now0 7 "c7" Db.dbMax2 Db.pNoAnswer).1.targets.head?).map
        (·.status) ≠ some TargetStatus.FAILED := by
  refine ⟨by decide, by decide, by decide, by decide⟩

/-- C8, counterexample.  `CampaignService.start_campaign` (file-storage
implementation) only rejects a campaign that is already RUNNING: a
DRAFT campaign is started without error — its status is mutated away
from draft — contradicting "start is allowed only from READY or
PAUSED". -/
theorem C8_counterexample :
    (FileApi.service_start_campaign 99 [] "fcgD" FileApi.fstDraft).2
      = FileApi.ServiceStartResult.completedNoPending
  ∧ ((FileApi.service_start_campaign 99 [] "fcgD" FileApi.fstDraft).1.campaigns.head?).map
        (·.status) = some FileApi.CampaignStatus.completed
  ∧ FileApi.fstDraft.campaigns.head?.map (·.status)
      = some FileApi.CampaignStatus.draft := by
  refine ⟨by decide, by decide, by decide⟩

/-- C9, counterexample.  A booked outcome with an unparsable pickup date
creates the appointment with the fallback time (today at 09:00), but
the parse failure does NOT set `requires_human_review` on the call —
the flag stays false — contradicting the claim that the failure is
surfaced through it. -/
theorem C9_counterexample :
    fi0 "not-a-dateT09:00" = none
  ∧ (Db.reconcilePostCall fi0 now0 9 "c9" Db.dbBase Db.pGarbageDate).1.appointments.length = 1
  ∧ ((Db.reconcilePostCall fi0 now0 9 "c9" Db.dbBase Db.pGarbageDate).1.appointments.head?).map
        (·.scheduled_start)
      = some { year := 2024, month := 2, day := 20, hour := 9, minute := 0, second := 5 }
  ∧ ((Db.reconcilePostCall fi0 now0 9 "c9" Db.dbBase Db.pGarbageDate).1.calls.head?).map
        (·.requires_human_review) = some false := by
  refine ⟨by decide, by decide, by decide, by decide⟩

/-- C10.  When the payload metadata does not resolve to an existing
CampaignTarget, the database-backed reconciler resolves no customer
context, and consequently — whatever the classified outcome, and even
when an existing Call row matches the conversation id — the DNC list,
the appointments and the audit log are left untouched. -/
theorem C10_no_context_no_side_effects (fi : String → Option PyDateTime)
    (now : PyDateTime) (ts : Nat) (ncid : String) (db : Db.Database)
    (p : Db.ElevenLabsPostCallPayload)
    (h : Db.resolveTarget db p = none) :
    Db.resolveCustomer db (Db.resolveTarget db p) = none
  ∧ (Db.reconcilePostCall fi now ts ncid db p).1.dnc = db.dnc
  ∧ (Db.reconcilePostCall fi now ts ncid db p).1.appointments = db.appointments
  ∧ (Db.reconcilePostCall fi now ts ncid db p).1.audit = db.audit := by
  have hcust : Db.resolveCustomer db (Db.resolveTarget db p) = none := by
    rw [h]; rfl
  refine ⟨hcust, ?_, ?_, ?_⟩ <;>
  · unfold Db.reconcilePostCall
    rw [h]
    cases hc : Db.findCallByConversationId db p.conversation_id <;>
      simp [hc, Db.resolveCustomer, Db.resolveCampaign, dncAfterOptOut_none,
            appointmentsAfterBooked_none, auditAfterWebhook_none]

/-- C10, witness: a concrete opt-out payload without metadata hitting an
existing call mutates neither DNC nor appointments nor audit. -/
theorem C10_witness :
    Db.resolveTarget Db.dbWithCall Db.pNoMeta = none
  ∧ (Db.resolveCustomer Db.dbWithCall (Db.resolveTarget Db.dbWithCall Db.pNoMeta) = none
     ∧ (Db.reconcilePostCall fi0 now0 3 "c10" Db.dbWithCall Db.pNoMeta).1.dnc
         = Db.dbWithCall.dnc
     ∧ (Db.reconcilePostCall fi0 now0 3 "c10" Db.dbWithCall Db.pNoMeta).1.appointments
         = Db.dbWithCall.appointments
     ∧ (Db.reconcilePostCall fi0 now0 3 "c10" Db.dbWithCall Db.pNoMeta).1.audit
         = Db.dbWithCall.audit) :=
  ⟨by decide,
   C10_no_context_no_side_effects fi0 now0 3 "c10" Db.dbWithCall Db.pNoMeta
     (by decide)⟩

/-- C5.  The DNC invariant holds in the code: (1) an enrollment item
whose phone is on the org DNC list is skipped — the database is
unchanged, the skipped_dnc counter is incremented and nothing is
created; (2) opt-out processing never inserts a DncEntry when one
already exists for that (org, phone); (3) one webhook reconciliation
never brings a DNC pair above one entry (insert-if-absent). -/
theorem C5_dnc_invariant :
    (∀ (org cid : String) (s : Db.UploadState) (item : Db.TargetCreateItem),
        s.db.dnc.any (fun e => e.org_id == org && e.phone_e164 == item.phone) = true →
        (Db.uploadTargetItem org cid s item).db = s.db
      ∧ (Db.uploadTargetItem org cid s item).counters.skipped_dnc
          = s.counters.skipped_dnc + 1
      ∧ (Db.uploadTargetItem org cid s item).counters.created = s.counters.created)
  ∧ (∀ (d : List Db.DncEntry) (o : CallOutcome) (c : Db.Customer),
        d.any (fun e => e.org_id == c.org_id && e.phone_e164 == c.phone_e164) = true →
        Db.dncAfterOptOut d o (some c) = d)
  ∧ (∀ (fi : String → Option PyDateTime) (now : PyDateTime) (ts : Nat)
        (ncid : String) (db : Db.Database) (p : Db.ElevenLabsPostCallPayload)
        (org ph : String),
        dncCount (Db.reconcilePostCall fi now ts ncid db p).1.dnc org ph
          ≤ max (dncCount db.dnc org ph) 1) := by
  refine ⟨?_, ?_, ?_⟩
  · intro org cid s item hdnc
    unfold Db.uploadTargetItem
    rw [hdnc]
    simp
  · intro d o c hany
    unfold Db.dncAfterOptOut
    split
    · simp [hany]
    · rfl
  · intro fi now ts ncid db p org ph
    unfold Db.reconcilePostCall
    cases hc : Db.findCallByConversationId db p.conversation_id <;>
      cases hcu : Db.resolveCustomer db (Db.resolveTarget db p) <;>
        simp [hc, hcu] <;>
        first
          | exact le_max_left _ _
          | exact dncCount_afterOptOut_le _ _ _ _ _
          | exact le_max_iff.mp (dncCount_afterOptOut_le _ _ _ _ _)

/-- C5, witness at concrete inputs: the fixture DNC phone is skipped at
enrollment, the fixture opt-out does not duplicate the existing entry,
and the reconciliation bound evaluates on the fixture database. -/
theorem C5_dnc_invariant_witness :
    Db.dbDnc.dnc.any (fun e =>
        e.org_id == "org1" && e.phone_e164 == Db.itemDnc.phone) = true
  ∧ ((Db.uploadTargetItem "org1" "cg1"
        { db := Db.dbDnc, counters := {}, fresh := 0 } Db.itemDnc).db = Db.dbDnc
     ∧ (Db.uploadTargetItem "org1" "cg1"
        { db := Db.dbDnc, counters := {}, fresh := 0 } Db.itemDnc).counters.skipped_dnc
         = (0 : Nat) + 1
     ∧ (Db.uploadTargetItem "org1" "cg1"
        { db := Db.dbDnc, counters := {}, fresh := 0 } Db.itemDnc).counters.created = 0)
  ∧ Db.dncAfterOptOut Db.dbDnc.dnc CallOutcome.OPT_OUT (some Db.cust1) = Db.dbDnc.dnc
  ∧ dncCount (Db.reconcilePostCall fi0 now0 1 "cw" Db.dbDnc Db.pOptOut).1.dnc
      "org1" "+15551230000"
      ≤ max (dncCount Db.dbDnc.dnc "org1" "+15551230000") 1 :=
  ⟨by decide,
   C5_dnc_invariant.1 "org1" "cg1"
     { db := Db.dbDnc, counters := {}, fresh := 0 } Db.itemDnc (by decide),
   C5_dnc_invariant.2.1 Db.dbDnc.dnc CallOutcome.OPT_OUT Db.cust1 (by decide),
   C5_dnc_invariant.2.2 fi0 now0 1 "cw" Db.dbDnc Db.pOptOut "org1" "+15551230000"⟩

/-- C9, amended claim.  For a BOOKED outcome with resolved customer
context (fresh-call path): when the extracted `pickup_date` is present,
exactly one Appointment is appended, and if the assembled date/time
string fails to parse its `scheduled_start` falls back to today at
09:00 rather than the event being rejected; when `pickup_date` is
absent, NO appointment is created; and the parse failure does not set
`requires_human_review` — the created call's flag equals the
negative-sentiment test alone. -/
theorem C9_amended (fi : String → Option PyDateTime) (now : PyDateTime)
    (ts : Nat) (ncid : String) (db : Db.Database)
    (p : Db.ElevenLabsPostCallPayload) (cust : Db.Customer)
    (hcall : Db.findCallByConversationId db p.conversation_id = none)
    (hcust : Db.resolveCustomer db (Db.resolveTarget db p) = some cust)
    (hout : map_call_outcome p.analysis p.status = CallOutcome.BOOKED) :
    (∀ pd, p.analysis.bind (·.pickup_date) = some pd → pd ≠ "" →
        ∃ a, (Db.reconcilePostCall fi now ts ncid db p).1.appointments
               = db.appointments ++ [a]
           ∧ (fi (pd ++ "T" ++ Db.pickupTimeOf p.analysis) = none →
                a.scheduled_start = { now with hour := 9, minute := 0 }))
  ∧ (p.analysis.bind (·.pickup_date) = none →
       (Db.reconcilePostCall fi now ts ncid db p).1.appointments = db.appointments)
  ∧ (∃ c, (Db.reconcilePostCall fi now ts ncid db p).1.calls = db.calls ++ [c]
        ∧ c.requires_human_review = Db.scoreNegative (map_sentiment p.sentiment).2) := by
  refine ⟨?_, ?_, ?_⟩
  · intro pd hpd hpdne
    simp only [Db.reconcilePostCall, hcall, hcust, hout]
    unfold Db.appointmentsAfterBooked
    have hpdne' : (pd == "") = false := beq_eq_false_iff_ne.mpr hpdne
    cases hfi : fi (pd ++ "T" ++ Db.pickupTimeOf p.analysis) with
    | none =>
        simp [hpd, hpdne', hfi]
    | some v =>
        simp [hpd, hpdne', hfi]
  · intro hpd
    simp only [Db.reconcilePostCall, hcall, hcust, hout]
    unfold Db.appointmentsAfterBooked
    simp [hpd]
  · simp only [Db.reconcilePostCall, hcall, hcust, hout]
    exact ⟨_, rfl, rfl⟩

/-- C9, witness: the fixture garbage-date booking creates exactly one
fallback appointment and leaves the review flag equal to the (false)
negative-sentiment test. -/
theorem C9_amended_witness :
    Db.findCallByConversationId Db.dbBase Db.pGarbageDate.conversation_id = none
  ∧ (∃ a, (Db.reconcilePostCall fi0 now0 9 "c9" Db.dbBase Db.pGarbageDate).1.appointments
            = Db.dbBase.appointments ++ [a]
        ∧ (fi0 ("not-a-date" ++ "T" ++ Db.pickupTimeOf Db.pGarbageDate.analysis) = none →
             a.scheduled_start = { now0 with hour := 9, minute := 0 })) :=
  ⟨by decide,
   (C9_amended fi0 now0 9 "c9" Db.dbBase Db.pGarbageDate Db.cust1
      (by decide) (by decide) (by decide)).1 "not-a-date" (by decide) (by decide)⟩

/-- C8, amended claim.  The database-backed `start_campaign` route
behaves as the claim states: start is refused (and nothing changes)
unless the campaign is READY or PAUSED; on provider success the
campaign row becomes RUNNING with the batch id and every selected
PENDING target becomes IN_PROGRESS; on provider failure the campaign
row becomes FAILED and the targets table is untouched (the selected
targets remain PENDING).  The file-storage `CampaignService`, by
contrast, only refuses an already-RUNNING campaign (see the
counterexample). -/
theorem C8_amended (org cid : String) (provider : Option String)
    (db : Db.Database) (c : Db.Campaign)
    (hfind : db.campaigns.find? (fun x => x.id == cid && x.org_id == org) = some c) :
    ((c.status ≠ CampaignStatus.READY ∧ c.status ≠ CampaignStatus.PAUSED) →
        Db.start_campaign org cid provider db = (db, Db.StartResult.badStatus c.status))
  ∧ ((c.status = CampaignStatus.READY ∨ c.status = CampaignStatus.PAUSED) →
      Db.pendingTargetsOf db cid ≠ [] →
      ((∀ b, provider = some b →
          ({ c with status := CampaignStatus.RUNNING,
                    eleven_batch_id := some b } : Db.Campaign)
            ∈ (Db.start_campaign org cid provider db).1.campaigns
        ∧ (∀ t ∈ Db.pendingTargetsOf db cid,
            ({ t with status := TargetStatus.IN_PROGRESS } : Db.CampaignTarget)
              ∈ (Db.start_campaign org cid provider db).1.targets)
        ∧ (Db.start_campaign org cid provider db).2
            = Db.StartResult.started (Db.pendingTargetsOf db cid).length)
       ∧ (provider = none →
          ({ c with status := CampaignStatus.FAILED } : Db.Campaign)
            ∈ (Db.start_campaign org cid provider db).1.campaigns
        ∧ (Db.start_campaign org cid provider db).1.targets = db.targets))) := by
  have hcmem : c ∈ db.campaigns := List.mem_of_find?_eq_some hfind
  constructor
  · intro hbad
    unfold Db.start_campaign
    simp only [hfind]
    rw [if_pos hbad]
  · intro hstat hpend
    have hcond : ¬(c.status ≠ CampaignStatus.READY ∧
        c.status ≠ CampaignStatus.PAUSED) := by
      rcases hstat with h | h <;> simp [h]
    have hempty : (Db.pendingTargetsOf db cid).isEmpty = false := by
      cases hp : Db.pendingTargetsOf db cid with
      | nil => exact absurd hp hpend
      | cons x xs => rfl
    constructor
    · intro b hb
      subst hb
      unfold Db.start_campaign
      simp only [hfind]
      rw [if_neg hcond]
      simp only [hempty, Bool.false_eq_true, if_false]
      refine ⟨?_, ?_, by first | rfl | trivial⟩
      · have himg := List.mem_map_of_mem (f := fun x : Db.Campaign =>
          if x.id == c.id then
            { x with status := CampaignStatus.RUNNING,
                     eleven_batch_id := some b }
          else x) hcmem
        simpa using himg
      · intro t ht
        have htmem : t ∈ db.targets := List.mem_of_mem_filter ht
        have hany : (Db.pendingTargetsOf db cid).any (fun q => q.id == t.id) = true :=
          List.any_eq_true.mpr ⟨t, ht, by simp⟩
        have himg := List.mem_map_of_mem (f := fun x : Db.CampaignTarget =>
          if (Db.pendingTargetsOf db cid).any (fun q => q.id == x.id) then
            { x with status := TargetStatus.IN_PROGRESS }
          else x) htmem
        simpa [hany] using himg
    · intro hb
      subst hb
      unfold Db.start_campaign
      simp only [hfind]
      rw [if_neg hcond]
      simp only [hempty, Bool.false_eq_true, if_false]
      refine ⟨?_, by first | rfl | trivial⟩
      have himg := List.mem_map_of_mem (f := fun x : Db.Campaign =>
        if x.id == c.id then { x with status := CampaignStatus.FAILED }
        else x) hcmem
      simpa using himg

/-- C8, witness: the concrete READY fixture campaign — on provider
success it is RUNNING with its pending target IN_PROGRESS, and with a
provider failure it is FAILED with targets untouched. -/
theorem C8_amended_witness :
    Db.dbReady.campaigns.find? (fun x => x.id == "cg8" && x.org_id == "org1")
      = some Db.campReady
  ∧ (({ Db.campReady with status := CampaignStatus.RUNNING,
                            eleven_batch_id := some "batch1" } : Db.Campaign)
        ∈ (Db.start_campaign "org1" "cg8" (some "batch1") Db.dbReady).1.campaigns
     ∧ (∀ t ∈ Db.pendingTargetsOf Db.dbReady "cg8",
          ({ t with status := TargetStatus.IN_PROGRESS } : Db.CampaignTarget)
            ∈ (Db.start_campaign "org1" "cg8" (some "batch1") Db.dbReady).1.targets)
     ∧ (Db.start_campaign "org1" "cg8" (some "batch1") Db.dbReady).2
         = Db.StartResult.started (Db.pendingTargetsOf Db.dbReady "cg8").length)
  ∧ (({ Db.campReady with status := CampaignStatus.FAILED } : Db.Campaign)
        ∈ (Db.start_campaign "org1" "cg8" none Db.dbReady).1.campaigns
     ∧ (Db.start_campaign "org1" "cg8" none Db.dbReady).1.targets
         = Db.dbReady.targets) :=
  ⟨by decide,
   (C8_amended "org1" "cg8" (some "batch1") Db.dbReady Db.campReady
      (by decide)).2 (Or.inl (by decide)) (by decide) |>.1 "batch1" rfl,
   (C8_amended "org1" "cg8" none Db.dbReady Db.campReady
      (by decide)).2 (Or.inl (by decide)) (by decide) |>.2 rfl⟩

/-- C3, amended claim.  In the file-storage route each storage write is
individually durable but the set is not one atomic step and the dedup
mark is not last: whenever a webhook is processed, the write sequence
starts with the call update, the dedup mark is the second write (so a
crash after the first write leaves the call update persisted with the
webhook still unmarked — the redelivery retries it), and every write
after the mark (campaign stats, sheet write-back) leaves the dedup
index untouched, so the mark happens exactly once and the writes after
it are not protected by redelivery. -/
theorem C3_amended (mac : String → String → String) (sid : String) (ts : Nat)
    (secret : String) (sig : Option String) (body : String)
    (d : FileApi.WebhookData) (st : FileApi.FsState) (cid oc : String)
    (h : (FileApi.elevenlabs_webhook_effects mac sid ts secret sig body d st).2
          = FileApi.WebhookResp.processed cid oc) :
    ∃ c rest,
      (FileApi.elevenlabs_webhook_effects mac sid ts secret sig body d st).1
        = FileApi.FileEffect.updateCall c
            :: FileApi.FileEffect.markWebhook
                 ("el_" ++ (firstTruthyStr [d.call_id, d.conversation_id]).getD "")
            :: rest
    ∧ (FileApi.applyEffect st (FileApi.FileEffect.updateCall c)).webhook_dedup
        = st.webhook_dedup
    ∧ ∀ e ∈ rest, ∀ s : FileApi.FsState,
        (FileApi.applyEffect s e).webhook_dedup = s.webhook_dedup := by
  unfold FileApi.elevenlabs_webhook_effects at h ⊢
  by_cases hgate : secret ≠ "" ∧ strTruthy sig = true ∧
      FileApi.verify_elevenlabs_signature mac body (sig.getD "") secret = false
  · rw [if_pos hgate] at h
    simp at h
  · rw [if_neg hgate] at h ⊢
    cases hext : firstTruthyStr [d.call_id, d.conversation_id] with
    | none => rw [hext] at h; simp at h
    | some cid0 =>
        rw [hext] at h
        dsimp only at h ⊢
        cases hdp : FileApi.check_webhook_processed st ("el_" ++ cid0) with
        | true => rw [hdp] at h; simp at h
        | false =>
            rw [hdp] at h
            simp only [Bool.false_eq_true, if_false] at h ⊢
            cases hfind : st.calls.find? (fun c => c.elevenlabs_call_id == some cid0) with
            | none => rw [hfind] at h; simp at h
            | some call =>
                rw [hfind] at h
                dsimp only at h ⊢
                simp only [List.cons_append, List.nil_append, Option.getD_some]
                refine ⟨_, _, rfl, rfl, ?_⟩
                intro e he s
                rcases List.mem_append.mp he with hm | hm
                · cases hcamp : (st.campaigns.find? (fun c =>
                      c.id == (FileApi.callAfterEvent ts d call).campaign_id)) with
                  | none => rw [hcamp] at hm; cases hm
                  | some cg =>
                      rw [hcamp] at hm
                      rcases List.mem_singleton.mp hm with rfl
                      rfl
                · rcases List.mem_singleton.mp hm with rfl
                  rfl

/-- C3, witness: the fixture processed run has its claimed write shape
— call update first, then the mark, then only dedup-preserving writes. -/
theorem C3_amended_witness :
    (FileApi.elevenlabs_webhook_effects mac0 "defsheet" 50 "" none "body"
        FileApi.dCompleted FileApi.fstBase).2
      = FileApi.WebhookResp.processed "fc1" "appointment_set"
  ∧ ∃ c rest,
      (FileApi.elevenlabs_webhook_effects mac0 "defsheet" 50 "" none "body"
          FileApi.dCompleted FileApi.fstBase).1
        = FileApi.FileEffect.updateCall c
            :: FileApi.FileEffect.markWebhook
                 ("el_" ++ (firstTruthyStr [FileApi.dCompleted.call_id,
                    FileApi.dCompleted.conversation_id]).getD "")
            :: rest
    ∧ (FileApi.applyEffect FileApi.fstBase
          (FileApi.FileEffect.updateCall c)).webhook_dedup
        = FileApi.fstBase.webhook_dedup
    ∧ ∀ e ∈ rest, ∀ s : FileApi.FsState,
        (FileApi.applyEffect s e).webhook_dedup = s.webhook_dedup :=
  ⟨by decide,
   C3_amended mac0 "defsheet" 50 "" none "body" FileApi.dCompleted
     FileApi.fstBase "fc1" "appointment_set" (by decide)⟩

/-! ### Path lemmas for the file-storage webhook route -/

theorem fileWebhook_unauthorized (mac : String → String → String)
    (sid : String) (ts : Nat) (secret : String) (sig : Option String)
    (body : String) (d : FileApi.WebhookData) (s : FileApi.FsState)
    (hgate : secret ≠ "" ∧ strTruthy sig = true ∧
      FileApi.verify_elevenlabs_signature mac body (sig.getD "") secret = false) :
    FileApi.elevenlabs_webhook mac sid ts secret sig body d s
      = (s, FileApi.WebhookResp.unauthorized) := by
  unfold FileApi.elevenlabs_webhook FileApi.elevenlabs_webhook_effects
  rw [if_pos hgate]
  rfl

theorem fileWebhook_no_id (mac : String → String → String) (sid : String)
    (ts : Nat) (secret : String) (sig : Option String) (body : String)
    (d : FileApi.WebhookData) (s : FileApi.FsState)
    (hgate : ¬(secret ≠ "" ∧ strTruthy sig = true ∧
      FileApi.verify_elevenlabs_signature mac body (sig.getD "") secret = false))
    (hext : firstTruthyStr [d.call_id, d.conversation_id] = none) :
    FileApi.elevenlabs_webhook mac sid ts secret sig body d s
      = (s, FileApi.WebhookResp.ignored "no call_id") := by
  unfold FileApi.elevenlabs_webhook FileApi.elevenlabs_webhook_effects
  rw [if_neg hgate]
  simp only [hext]
  rfl

theorem fileWebhook_duplicate (mac : String → String → String) (sid : String)
    (ts : Nat) (secret : String) (sig : Option String) (body : String)
    (d : FileApi.WebhookData) (s : FileApi.FsState) (cid0 : String)
    (hgate : ¬(secret ≠ "" ∧ strTruthy sig = true ∧
      FileApi.verify_elevenlabs_signature mac body (sig.getD "") secret = false))
    (hext : firstTruthyStr [d.call_id, d.conversation_id] = some cid0)
    (hdp : FileApi.check_webhook_processed s ("el_" ++ cid0) = true) :
    FileApi.elevenlabs_webhook mac sid ts secret sig body d s
      = (s, FileApi.WebhookResp.duplicate cid0) := by
  unfold FileApi.elevenlabs_webhook FileApi.elevenlabs_webhook_effects
  rw [if_neg hgate]
  simp only [hext]
  simp only [hdp]
  rfl

theorem fileWebhook_no_call (mac : String → String → String) (sid : String)
    (ts : Nat) (secret : String) (sig : Option String) (body : String)
    (d : FileApi.WebhookData) (s : FileApi.FsState) (cid0 : String)
    (hgate : ¬(secret ≠ "" ∧ strTruthy sig = true ∧
      FileApi.verify_elevenlabs_signature mac body (sig.getD "") secret = false))
    (hext : firstTruthyStr [d.call_id, d.conversation_id] = some cid0)
    (hdp : FileApi.check_webhook_processed s ("el_" ++ cid0) = false)
    (hfind : s.calls.find? (fun c => c.elevenlabs_call_id == some cid0) = none) :
    FileApi.elevenlabs_webhook mac sid ts secret sig body d s
      = (s, FileApi.WebhookResp.ignored "call not found") := by
  unfold FileApi.elevenlabs_webhook FileApi.elevenlabs_webhook_effects
  rw [if_neg hgate]
  simp only [hext]
  simp only [hdp, Bool.false_eq_true, if_false, hfind]
  rfl

theorem fileWebhook_processed_dedup (mac : String → String → String)
    (sid : String) (ts : Nat) (secret : String) (sig : Option String)
    (body : String) (d : FileApi.WebhookData) (s : FileApi.FsState)
    (cid0 : String) (call : FileApi.Call)
    (hgate : ¬(secret ≠ "" ∧ strTruthy sig = true ∧
      FileApi.verify_elevenlabs_signature mac body (sig.getD "") secret = false))
    (hext : firstTruthyStr [d.call_id, d.conversation_id] = some cid0)
    (hdp : FileApi.check_webhook_processed s ("el_" ++ cid0) = false)
    (hfind : s.calls.find? (fun c => c.elevenlabs_call_id == some cid0)
      = some call) :
    ((FileApi.elevenlabs_webhook mac sid ts secret sig body d s).1).webhook_dedup
      = FileApi.mark_webhook_processed s.webhook_dedup ("el_" ++ cid0)
  ∧ (FileApi.elevenlabs_webhook mac sid ts secret sig body d s).2
      = FileApi.WebhookResp.processed call.id
          (FileApi.callAfterEvent ts d call).outcome.value := by
  unfold FileApi.elevenlabs_webhook FileApi.elevenlabs_webhook_effects
  rw [if_neg hgate]
  simp only [hext]
  simp only [hdp, Bool.false_eq_true, if_false, hfind]
  constructor
  · cases hcamp : s.campaigns.find? (fun c =>
        c.id == (FileApi.callAfterEvent ts d call).campaign_id) <;>
      dsimp [List.foldl, FileApi.applyEffect]
  · trivial

/-- C1, amended claim.  The FILE-storage webhook route is idempotent:
processing the same body a second time (at any later timestamp) leaves
the stored state exactly as after the first processing, and whenever
the first delivery was actually processed, the second returns the
successful no-op response with status "duplicate" for the extracted
call id.  The DATABASE-backed handler, which owns the AuditLog /
DncEntry / Appointment side effects, has no dedup gate at all and
re-applies its side effects on every delivery (see the
counterexample). -/
theorem C1_amended (mac : String → String → String) (sid : String)
    (ts1 ts2 : Nat) (secret : String) (sig : Option String) (body : String)
    (d : FileApi.WebhookData) (st : FileApi.FsState) :
    (FileApi.elevenlabs_webhook mac sid ts2 secret sig body d
        (FileApi.elevenlabs_webhook mac sid ts1 secret sig body d st).1).1
      = (FileApi.elevenlabs_webhook mac sid ts1 secret sig body d st).1
  ∧ (∀ cid oc,
      (FileApi.elevenlabs_webhook mac sid ts1 secret sig body d st).2
        = FileApi.WebhookResp.processed cid oc →
      (FileApi.elevenlabs_webhook mac sid ts2 secret sig body d
        (FileApi.elevenlabs_webhook mac sid ts1 secret sig body d st).1).2
        = FileApi.WebhookResp.duplicate
            ((firstTruthyStr [d.call_id, d.conversation_id]).getD "")) := by
  by_cases hgate : secret ≠ "" ∧ strTruthy sig = true ∧
      FileApi.verify_elevenlabs_signature mac body (sig.getD "") secret = false
  · have h1 := fileWebhook_unauthorized mac sid ts1 secret sig body d st hgate
    refine ⟨?_, ?_⟩
    · rw [h1, fileWebhook_unauthorized mac sid ts2 secret sig body d st hgate]
    · intro cid oc hresp
      rw [h1] at hresp
      simp at hresp
  · cases hext : firstTruthyStr [d.call_id, d.conversation_id] with
    | none =>
        have h1 := fileWebhook_no_id mac sid ts1 secret sig body d st hgate hext
        refine ⟨?_, ?_⟩
        · rw [h1, fileWebhook_no_id mac sid ts2 secret sig body d st hgate hext]
        · intro cid oc hresp
          rw [h1] at hresp
          simp at hresp
    | some cid0 =>
        cases hdp : FileApi.check_webhook_processed st ("el_" ++ cid0) with
        | true =>
            have h1 := fileWebhook_duplicate mac sid ts1 secret sig body d st
              cid0 hgate hext hdp
            refine ⟨?_, ?_⟩
            · rw [h1, fileWebhook_duplicate mac sid ts2 secret sig body d st
                cid0 hgate hext hdp]
            · intro cid oc hresp
              rw [h1] at hresp
              simp at hresp
        | false =>
            cases hfind : st.calls.find? (fun c =>
                c.elevenlabs_call_id == some cid0) with
            | none =>
                have h1 := fileWebhook_no_call mac sid ts1 secret sig body d st
                  cid0 hgate hext hdp hfind
                refine ⟨?_, ?_⟩
                · rw [h1, fileWebhook_no_call mac sid ts2 secret sig body d st
                    cid0 hgate hext hdp hfind]
                · intro cid oc hresp
                  rw [h1] at hresp
                  simp at hresp
            | some call =>
                have hp1 := fileWebhook_processed_dedup mac sid ts1 secret sig
                  body d st cid0 call hgate hext hdp hfind
                have hdp2 : FileApi.check_webhook_processed
                    (FileApi.elevenlabs_webhook mac sid ts1 secret sig body d st).1
                    ("el_" ++ cid0) = true := by
                  unfold FileApi.check_webhook_processed
                  rw [hp1.1]
                  exact contains_mark_webhook _ _
                have h2 := fileWebhook_duplicate mac sid ts2 secret sig body d
                  (FileApi.elevenlabs_webhook mac sid ts1 secret sig body d st).1
                  cid0 hgate hext hdp2
                refine ⟨?_, ?_⟩
                · rw [h2]
                · intro cid oc hresp
                  rw [h2]
                  simp [hext]

/-- C1, witness for the amended claim: the fixture completed-call body
is processed once, and the redelivery returns the "duplicate" no-op. -/
theorem C1_amended_witness :
    (FileApi.elevenlabs_webhook mac0 "ds" 50 "" none "b" FileApi.dCompleted
        FileApi.fstBase).2
      = FileApi.WebhookResp.processed "fc1" "appointment_set"
  ∧ (FileApi.elevenlabs_webhook mac0 "ds" 51 "" none "b" FileApi.dCompleted
        (FileApi.elevenlabs_webhook mac0 "ds" 50 "" none "b" FileApi.dCompleted
          FileApi.fstBase).1).2
      = FileApi.WebhookResp.duplicate
          ((firstTruthyStr [FileApi.dCompleted.call_id,
             FileApi.dCompleted.conversation_id]).getD "") :=
  ⟨by decide,
   (C1_amended mac0 "ds" 50 51 "" none "b" FileApi.dCompleted
      FileApi.fstBase).2 "fc1" "appointment_set" (by decide)⟩

end Callyala
